import Mathlib

/-!
A shallow embedding of the cycle-stepped Z80 CPU core in `src/chips/z80x.h`.

The 64-bit pin word and the 64-bit decode pipeline are modelled as `Nat`,
with explicit masking exactly where the C code truncates (parameter
conversions to `uint8_t`/`uint16_t`, stores into fixed-width fields, and
bitwise complement at `uint64_t` width).  The union-aliased 8/16-bit
register pairs of `z80_t` are modelled as one 16-bit cell per pair with
explicit high/low-byte accessors (little-endian: the first union member is
the low byte).  The giant `switch` of `z80_tick` is a micro-program: each
`case` body is one of a small number of statement shapes, so the switch is
embedded as a list of micro-step descriptors (`MStep`, one constructor per
statement shape occurring in the source) interpreted by `z80_exec`; the
list is index-for-index the `case 0x0000 .. case 0x0158` bodies of the
source file.
-/

-- control pins (bit positions as in the source)
def Z80_M1   : Nat := 1 <<< 24
def Z80_MREQ : Nat := 1 <<< 25
def Z80_IORQ : Nat := 1 <<< 26
def Z80_RD   : Nat := 1 <<< 27
def Z80_WR   : Nat := 1 <<< 28
def Z80_HALT : Nat := 1 <<< 29
def Z80_INT  : Nat := 1 <<< 30
def Z80_RES  : Nat := 1 <<< 31
def Z80_NMI  : Nat := 1 <<< 32
def Z80_WAIT : Nat := 1 <<< 33
def Z80_RFSH : Nat := 1 <<< 34

def Z80_CTRL_PIN_MASK : Nat :=
  Z80_M1 ||| Z80_MREQ ||| Z80_IORQ ||| Z80_RD ||| Z80_WR ||| Z80_RFSH

/-- Bitwise complement of a mask at `uint64_t` width (the C `~` applied to a
64-bit mask). -/
def c_not64 (m : Nat) : Nat := 0xFFFFFFFFFFFFFFFF ^^^ m

-- status flag bits
def Z80_CF : Nat := 1 <<< 0
def Z80_NF : Nat := 1 <<< 1
def Z80_VF : Nat := 1 <<< 2
def Z80_XF : Nat := 1 <<< 3
def Z80_HF : Nat := 1 <<< 4
def Z80_YF : Nat := 1 <<< 5
def Z80_ZF : Nat := 1 <<< 6
def Z80_SF : Nat := 1 <<< 7

-- machine cycle execution pipeline bits
def Z80_PIP_BIT_STEP : Nat := 1 <<< 0
def Z80_PIP_BIT_WAIT : Nat := 1 <<< 32
def Z80_PIP_BITS : Nat := Z80_PIP_BIT_STEP ||| Z80_PIP_BIT_WAIT

structure z80_opstate_t where
  pip : Nat
  step : Nat
deriving Repr, DecidableEq

/-- CPU state, mirroring the `z80_t` struct field for field; every
union-aliased register pair is kept as its 16-bit cell. -/
structure z80_t where
  pins : Nat
  op : z80_opstate_t
  pc : Nat
  ir : Nat
  dlatch : Nat
  af : Nat
  bc : Nat
  de : Nat
  hl : Nat
  wz : Nat
  sp : Nat
  ix : Nat
  iy : Nat
  i : Nat
  r : Nat
  im : Nat
  af2 : Nat
  bc2 : Nat
  de2 : Nat
  hl2 : Nat
deriving Repr, DecidableEq

-- high/low byte access of a union-aliased 16-bit register cell
def z80_get_hi (x : Nat) : Nat := (x >>> 8) % 256
def z80_get_lo (x : Nat) : Nat := x % 256
def z80_set_hi (x v : Nat) : Nat := (x % 256) ||| ((v % 256) <<< 8)
def z80_set_lo (x v : Nat) : Nat := (((x >>> 8) % 256) <<< 8) ||| (v % 256)

/-- The 8-bit register slots the decoder reads and writes (union members of
`z80_t`, plus the `dlatch` temporary). -/
inductive Reg8 where
  | b | c | d | e | h | l | a | spl | sph | wzl | wzh | dlatch
deriving Repr, DecidableEq

def z80_get8 (rg : Reg8) (cpu : z80_t) : Nat :=
  match rg with
  | .b => z80_get_hi cpu.bc
  | .c => z80_get_lo cpu.bc
  | .d => z80_get_hi cpu.de
  | .e => z80_get_lo cpu.de
  | .h => z80_get_hi cpu.hl
  | .l => z80_get_lo cpu.hl
  | .a => z80_get_hi cpu.af
  | .spl => z80_get_lo cpu.sp
  | .sph => z80_get_hi cpu.sp
  | .wzl => z80_get_lo cpu.wz
  | .wzh => z80_get_hi cpu.wz
  | .dlatch => cpu.dlatch

def z80_set8 (rg : Reg8) (v : Nat) (cpu : z80_t) : z80_t :=
  match rg with
  | .b => {cpu with bc := z80_set_hi cpu.bc v}
  | .c => {cpu with bc := z80_set_lo cpu.bc v}
  | .d => {cpu with de := z80_set_hi cpu.de v}
  | .e => {cpu with de := z80_set_lo cpu.de v}
  | .h => {cpu with hl := z80_set_hi cpu.hl v}
  | .l => {cpu with hl := z80_set_lo cpu.hl v}
  | .a => {cpu with af := z80_set_hi cpu.af v}
  | .spl => {cpu with sp := z80_set_lo cpu.sp v}
  | .sph => {cpu with sp := z80_set_hi cpu.sp v}
  | .wzl => {cpu with wz := z80_set_lo cpu.wz v}
  | .wzh => {cpu with wz := z80_set_hi cpu.wz v}
  | .dlatch => {cpu with dlatch := v % 256}

-- pin bus codec (`z80_set_ab` .. `z80_get_db` of the source; the `% 2^16`
-- and `% 2^8` reductions are the C conversions to the `uint16_t ab` and
-- `uint8_t db` parameter types)
def z80_set_ab (pins ab : Nat) : Nat :=
  (pins &&& c_not64 0xFFFF) ||| (ab % 65536)
def z80_set_ab_x (pins ab x : Nat) : Nat :=
  (pins &&& c_not64 0xFFFF) ||| (ab % 65536) ||| x
def z80_set_ab_db (pins ab db : Nat) : Nat :=
  (pins &&& c_not64 0xFFFFFF) ||| ((db % 256) <<< 16) ||| (ab % 65536)
def z80_set_ab_db_x (pins ab db x : Nat) : Nat :=
  (pins &&& c_not64 0xFFFFFF) ||| ((db % 256) <<< 16) ||| (ab % 65536) ||| x
def z80_get_db (pins : Nat) : Nat := (pins >>> 16) % 256

/-- `z80_halt` is a FIXME stub in the source: it does nothing. -/
def z80_halt (cpu : z80_t) : z80_t := cpu

/-- `z80_add` is a FIXME stub in the source: it ignores the operand, leaves
the CPU (including the flags byte) unchanged and returns `0`. -/
def z80_add (cpu : z80_t) (_val : Nat) : z80_t × Nat := (cpu, 0)

/-- `z80_adc` is a FIXME stub in the source (see `z80_add`). -/
def z80_adc (cpu : z80_t) (_val : Nat) : z80_t × Nat := (cpu, 0)

/-- `z80_sub` is a FIXME stub in the source: it ignores the operand, leaves
the CPU (including the flags byte) unchanged and returns `0`. -/
def z80_sub (cpu : z80_t) (_val : Nat) : z80_t × Nat := (cpu, 0)

/-- `z80_sbc` is a FIXME stub in the source (see `z80_add`). -/
def z80_sbc (cpu : z80_t) (_val : Nat) : z80_t × Nat := (cpu, 0)

/-- `z80_and` is a FIXME stub in the source (see `z80_add`). -/
def z80_and (cpu : z80_t) (_val : Nat) : z80_t × Nat := (cpu, 0)

/-- `z80_xor` is a FIXME stub in the source (see `z80_add`). -/
def z80_xor (cpu : z80_t) (_val : Nat) : z80_t × Nat := (cpu, 0)

/-- `z80_or` is a FIXME stub in the source (see `z80_add`). -/
def z80_or (cpu : z80_t) (_val : Nat) : z80_t × Nat := (cpu, 0)

/-- `z80_cp` is a FIXME stub in the source: it does nothing. -/
def z80_cp (cpu : z80_t) (_val : Nat) : z80_t := cpu

/-- Initiate a fetch machine cycle: reset the decoder to continue at case 0,
put `pc` (then post-incremented) on the address bus with `M1|MREQ|RD`. -/
def z80_fetch (cpu : z80_t) (pins : Nat) : z80_t × Nat :=
  -- cpu->op.pip = (1ULL<<32)|(5ULL<<1), i.e. 0x1_0000_000A; cpu->op.step = 0
  let cpu := {cpu with op := ⟨0x10000000A, 0⟩}
  let p := z80_set_ab_x pins cpu.pc (Z80_M1 ||| Z80_MREQ ||| Z80_RD)
  ({cpu with pc := (cpu.pc + 1) % 65536}, p)

/-- Initiate a refresh cycle: address bus = `r`, assert `MREQ|RFSH`, then
increment the low 7 bits of `r` keeping bit 7. -/
def z80_refresh (cpu : z80_t) (pins : Nat) : z80_t × Nat :=
  let p := z80_set_ab_x pins cpu.r (Z80_MREQ ||| Z80_RFSH)
  ({cpu with r := (cpu.r &&& 0x80) ||| ((cpu.r + 1) &&& 0x7F)}, p)
def z80_opstate_chunk0 : List z80_opstate_t := [
  ⟨0x0000000000000002, 0x0002⟩,  -- 0x00: nop (M:1 T:4 steps:1)
  ⟨0x00000024000000B6, 0x0003⟩,  -- 0x01: ld bc,nn (M:3 T:10 steps:5)
  ⟨0x0000000400000014, 0x0008⟩,  -- 0x02: ld (bc),a (M:2 T:7 steps:2)
  ⟨0x0000000000000002, 0x000A⟩,  -- 0x03: inc bc (M:1 T:4 steps:1)
  ⟨0x0000000000000002, 0x000B⟩,  -- 0x04: inc b (M:1 T:4 steps:1)
  ⟨0x0000000000000002, 0x000C⟩,  -- 0x05: dec b (M:1 T:4 steps:1)
  ⟨0x0000000400000016, 0x000D⟩,  -- 0x06: ld b,n (M:2 T:7 steps:3)
  ⟨0x0000000000000002, 0x0010⟩,  -- 0x07: rlca (M:1 T:4 steps:1)
  ⟨0x0000000000000002, 0x0011⟩,  -- 0x08: ex af,af2 (M:1 T:4 steps:1)
  ⟨0x0000000000000002, 0x0012⟩,  -- 0x09: add hl,bc (M:1 T:4 steps:1)
  ⟨0x0000000400000016, 0x0013⟩,  -- 0x0A: ld a,(bc) (M:2 T:7 steps:3)
  ⟨0x0000000000000002, 0x0016⟩,  -- 0x0B: dec bc (M:1 T:4 steps:1)
  ⟨0x0000000000000002, 0x0017⟩,  -- 0x0C: inc c (M:1 T:4 steps:1)
  ⟨0x0000000000000002, 0x0018⟩,  -- 0x0D: dec c (M:1 T:4 steps:1)
  ⟨0x0000000400000016, 0x0019⟩,  -- 0x0E: ld c,n (M:2 T:7 steps:3)
  ⟨0x0000000000000002, 0x001C⟩,  -- 0x0F: rrca (M:1 T:4 steps:1)
  ⟨0x0000000000000002, 0x001D⟩,  -- 0x10: djnz d (M:1 T:4 steps:1)
  ⟨0x00000024000000B6, 0x001E⟩,  -- 0x11: ld de,nn (M:3 T:10 steps:5)
  ⟨0x0000000400000014, 0x0023⟩,  -- 0x12: ld (de),a (M:2 T:7 steps:2)
  ⟨0x0000000000000002, 0x0025⟩,  -- 0x13: inc de (M:1 T:4 steps:1)
  ⟨0x0000000000000002, 0x0026⟩,  -- 0x14: inc d (M:1 T:4 steps:1)
  ⟨0x0000000000000002, 0x0027⟩,  -- 0x15: dec d (M:1 T:4 steps:1)
  ⟨0x0000000400000016, 0x0028⟩,  -- 0x16: ld d,n (M:2 T:7 steps:3)
  ⟨0x0000000000000002, 0x002B⟩,  -- 0x17: rla (M:1 T:4 steps:1)
  ⟨0x0000000000000002, 0x002C⟩,  -- 0x18: jr d (M:1 T:4 steps:1)
  ⟨0x0000000000000002, 0x002D⟩,  -- 0x19: add hl,de (M:1 T:4 steps:1)
  ⟨0x0000000400000016, 0x002E⟩,  -- 0x1A: ld a,(de) (M:2 T:7 steps:3)
  ⟨0x0000000000000002, 0x0031⟩,  -- 0x1B: dec de (M:1 T:4 steps:1)
  ⟨0x0000000000000002, 0x0032⟩,  -- 0x1C: inc e (M:1 T:4 steps:1)
  ⟨0x0000000000000002, 0x0033⟩,  -- 0x1D: dec e (M:1 T:4 steps:1)
  ⟨0x0000000400000016, 0x0034⟩,  -- 0x1E: ld e,n (M:2 T:7 steps:3)
  ⟨0x0000000000000002, 0x0037⟩  -- 0x1F: rra (M:1 T:4 steps:1)
]

def z80_opstate_chunk1 : List z80_opstate_t := [
  ⟨0x0000000000000002, 0x0038⟩,  -- 0x20: jr nz,d (M:1 T:4 steps:1)
  ⟨0x00000024000000B6, 0x0039⟩,  -- 0x21: ld hl,nn (M:3 T:10 steps:5)
  ⟨0x0000000000000002, 0x003E⟩,  -- 0x22: ld (nn),hl (M:1 T:4 steps:1)
  ⟨0x0000000000000002, 0x003F⟩,  -- 0x23: inc hl (M:1 T:4 steps:1)
  ⟨0x0000000000000002, 0x0040⟩,  -- 0x24: inc h (M:1 T:4 steps:1)
  ⟨0x0000000000000002, 0x0041⟩,  -- 0x25: dec h (M:1 T:4 steps:1)
  ⟨0x0000000400000016, 0x0042⟩,  -- 0x26: ld h,n (M:2 T:7 steps:3)
  ⟨0x0000000000000002, 0x0045⟩,  -- 0x27: daa (M:1 T:4 steps:1)
  ⟨0x0000000000000002, 0x0046⟩,  -- 0x28: jr z,d (M:1 T:4 steps:1)
  ⟨0x0000000000000002, 0x0047⟩,  -- 0x29: add hl,hl (M:1 T:4 steps:1)
  ⟨0x0000000000000002, 0x0048⟩,  -- 0x2A: ld hl,(nn) (M:1 T:4 steps:1)
  ⟨0x0000000000000002, 0x0049⟩,  -- 0x2B: dec hl (M:1 T:4 steps:1)
  ⟨0x0000000000000002, 0x004A⟩,  -- 0x2C: inc l (M:1 T:4 steps:1)
  ⟨0x0000000000000002, 0x004B⟩,  -- 0x2D: dec l (M:1 T:4 steps:1)
  ⟨0x0000000400000016, 0x004C⟩,  -- 0x2E: ld l,n (M:2 T:7 steps:3)
  ⟨0x0000000000000002, 0x004F⟩,  -- 0x2F: cpl (M:1 T:4 steps:1)
  ⟨0x0000000000000002, 0x0050⟩,  -- 0x30: jr nc,d (M:1 T:4 steps:1)
  ⟨0x00000024000000B6, 0x0051⟩,  -- 0x31: ld sp,nn (M:3 T:10 steps:5)
  ⟨0x0000012400000536, 0x0056⟩,  -- 0x32: ld (nn),a (M:4 T:13 steps:6)
  ⟨0x0000000000000002, 0x005C⟩,  -- 0x33: inc sp (M:1 T:4 steps:1)
  ⟨0x0000000000000002, 0x005D⟩,  -- 0x34: inc (hl) (M:1 T:4 steps:1)
  ⟨0x0000000000000002, 0x005E⟩,  -- 0x35: dec (hl) (M:1 T:4 steps:1)
  ⟨0x00000024000000A6, 0x005F⟩,  -- 0x36: ld (HL),n (M:3 T:10 steps:4)
  ⟨0x0000000000000002, 0x0063⟩,  -- 0x37: scf (M:1 T:4 steps:1)
  ⟨0x0000000000000002, 0x0064⟩,  -- 0x38: jr c,d (M:1 T:4 steps:1)
  ⟨0x0000000000000002, 0x0065⟩,  -- 0x39: add hl,sp (M:1 T:4 steps:1)
  ⟨0x00000124000005B6, 0x0066⟩,  -- 0x3A: ld a,(nn) (M:4 T:13 steps:7)
  ⟨0x0000000000000002, 0x006D⟩,  -- 0x3B: dec sp (M:1 T:4 steps:1)
  ⟨0x0000000000000002, 0x006E⟩,  -- 0x3C: inc a (M:1 T:4 steps:1)
  ⟨0x0000000000000002, 0x006F⟩,  -- 0x3D: dec a (M:1 T:4 steps:1)
  ⟨0x0000000400000016, 0x0070⟩,  -- 0x3E: ld a,n (M:2 T:7 steps:3)
  ⟨0x0000000000000002, 0x0073⟩  -- 0x3F: ccf (M:1 T:4 steps:1)
]

def z80_opstate_chunk2 : List z80_opstate_t := [
  ⟨0x0000000000000002, 0x0074⟩,  -- 0x40: ld b,b (M:1 T:4 steps:1)
  ⟨0x0000000000000002, 0x0075⟩,  -- 0x41: ld b,c (M:1 T:4 steps:1)
  ⟨0x0000000000000002, 0x0076⟩,  -- 0x42: ld b,d (M:1 T:4 steps:1)
  ⟨0x0000000000000002, 0x0077⟩,  -- 0x43: ld b,e (M:1 T:4 steps:1)
  ⟨0x0000000000000002, 0x0078⟩,  -- 0x44: ld b,h (M:1 T:4 steps:1)
  ⟨0x0000000000000002, 0x0079⟩,  -- 0x45: ld b,l (M:1 T:4 steps:1)
  ⟨0x0000000400000016, 0x007A⟩,  -- 0x46: ld b,(hl) (M:2 T:7 steps:3)
  ⟨0x0000000000000002, 0x007D⟩,  -- 0x47: ld b,a (M:1 T:4 steps:1)
  ⟨0x0000000000000002, 0x007E⟩,  -- 0x48: ld c,b (M:1 T:4 steps:1)
  ⟨0x0000000000000002, 0x007F⟩,  -- 0x49: ld c,c (M:1 T:4 steps:1)
  ⟨0x0000000000000002, 0x0080⟩,  -- 0x4A: ld c,d (M:1 T:4 steps:1)
  ⟨0x0000000000000002, 0x0081⟩,  -- 0x4B: ld c,e (M:1 T:4 steps:1)
  ⟨0x0000000000000002, 0x0082⟩,  -- 0x4C: ld c,h (M:1 T:4 steps:1)
  ⟨0x0000000000000002, 0x0083⟩,  -- 0x4D: ld c,l (M:1 T:4 steps:1)
  ⟨0x0000000400000016, 0x0084⟩,  -- 0x4E: ld c,(hl) (M:2 T:7 steps:3)
  ⟨0x0000000000000002, 0x0087⟩,  -- 0x4F: ld c,a (M:1 T:4 steps:1)
  ⟨0x0000000000000002, 0x0088⟩,  -- 0x50: ld d,b (M:1 T:4 steps:1)
  ⟨0x0000000000000002, 0x0089⟩,  -- 0x51: ld d,c (M:1 T:4 steps:1)
  ⟨0x0000000000000002, 0x008A⟩,  -- 0x52: ld d,d (M:1 T:4 steps:1)
  ⟨0x0000000000000002, 0x008B⟩,  -- 0x53: ld d,e (M:1 T:4 steps:1)
  ⟨0x0000000000000002, 0x008C⟩,  -- 0x54: ld d,h (M:1 T:4 steps:1)
  ⟨0x0000000000000002, 0x008D⟩,  -- 0x55: ld d,l (M:1 T:4 steps:1)
  ⟨0x0000000400000016, 0x008E⟩,  -- 0x56: ld d,(hl) (M:2 T:7 steps:3)
  ⟨0x0000000000000002, 0x0091⟩,  -- 0x57: ld d,a (M:1 T:4 steps:1)
  ⟨0x0000000000000002, 0x0092⟩,  -- 0x58: ld e,b (M:1 T:4 steps:1)
  ⟨0x0000000000000002, 0x0093⟩,  -- 0x59: ld e,c (M:1 T:4 steps:1)
  ⟨0x0000000000000002, 0x0094⟩,  -- 0x5A: ld e,d (M:1 T:4 steps:1)
  ⟨0x0000000000000002, 0x0095⟩,  -- 0x5B: ld e,e (M:1 T:4 steps:1)
  ⟨0x0000000000000002, 0x0096⟩,  -- 0x5C: ld e,h (M:1 T:4 steps:1)
  ⟨0x0000000000000002, 0x0097⟩,  -- 0x5D: ld e,l (M:1 T:4 steps:1)
  ⟨0x0000000400000016, 0x0098⟩,  -- 0x5E: ld e,(hl) (M:2 T:7 steps:3)
  ⟨0x0000000000000002, 0x009B⟩  -- 0x5F: ld e,a (M:1 T:4 steps:1)
]

def z80_opstate_chunk3 : List z80_opstate_t := [
  ⟨0x0000000000000002, 0x009C⟩,  -- 0x60: ld h,b (M:1 T:4 steps:1)
  ⟨0x0000000000000002, 0x009D⟩,  -- 0x61: ld h,c (M:1 T:4 steps:1)
  ⟨0x0000000000000002, 0x009E⟩,  -- 0x62: ld h,d (M:1 T:4 steps:1)
  ⟨0x0000000000000002, 0x009F⟩,  -- 0x63: ld h,e (M:1 T:4 steps:1)
  ⟨0x0000000000000002, 0x00A0⟩,  -- 0x64: ld h,h (M:1 T:4 steps:1)
  ⟨0x0000000000000002, 0x00A1⟩,  -- 0x65: ld h,l (M:1 T:4 steps:1)
  ⟨0x0000000400000016, 0x00A2⟩,  -- 0x66: ld h,(hl) (M:2 T:7 steps:3)
  ⟨0x0000000000000002, 0x00A5⟩,  -- 0x67: ld h,a (M:1 T:4 steps:1)
  ⟨0x0000000000000002, 0x00A6⟩,  -- 0x68: ld l,b (M:1 T:4 steps:1)
  ⟨0x0000000000000002, 0x00A7⟩,  -- 0x69: ld l,c (M:1 T:4 steps:1)
  ⟨0x0000000000000002, 0x00A8⟩,  -- 0x6A: ld l,d (M:1 T:4 steps:1)
  ⟨0x0000000000000002, 0x00A9⟩,  -- 0x6B: ld l,e (M:1 T:4 steps:1)
  ⟨0x0000000000000002, 0x00AA⟩,  -- 0x6C: ld l,h (M:1 T:4 steps:1)
  ⟨0x0000000000000002, 0x00AB⟩,  -- 0x6D: ld l,l (M:1 T:4 steps:1)
  ⟨0x0000000400000016, 0x00AC⟩,  -- 0x6E: ld l,(hl) (M:2 T:7 steps:3)
  ⟨0x0000000000000002, 0x00AF⟩,  -- 0x6F: ld l,a (M:1 T:4 steps:1)
  ⟨0x0000000400000014, 0x00B0⟩,  -- 0x70: ld (hl),b (M:2 T:7 steps:2)
  ⟨0x0000000400000014, 0x00B2⟩,  -- 0x71: ld (hl),c (M:2 T:7 steps:2)
  ⟨0x0000000400000014, 0x00B4⟩,  -- 0x72: ld (hl),d (M:2 T:7 steps:2)
  ⟨0x0000000400000014, 0x00B6⟩,  -- 0x73: ld (hl),e (M:2 T:7 steps:2)
  ⟨0x0000000400000014, 0x00B8⟩,  -- 0x74: ld (hl),h (M:2 T:7 steps:2)
  ⟨0x0000000400000014, 0x00BA⟩,  -- 0x75: ld (hl),l (M:2 T:7 steps:2)
  ⟨0x0000000000000002, 0x00BC⟩,  -- 0x76: halt (M:1 T:4 steps:1)
  ⟨0x0000000400000014, 0x00BD⟩,  -- 0x77: ld (hl),a (M:2 T:7 steps:2)
  ⟨0x0000000000000002, 0x00BF⟩,  -- 0x78: ld a,b (M:1 T:4 steps:1)
  ⟨0x0000000000000002, 0x00C0⟩,  -- 0x79: ld a,c (M:1 T:4 steps:1)
  ⟨0x0000000000000002, 0x00C1⟩,  -- 0x7A: ld a,d (M:1 T:4 steps:1)
  ⟨0x0000000000000002, 0x00C2⟩,  -- 0x7B: ld a,e (M:1 T:4 steps:1)
  ⟨0x0000000000000002, 0x00C3⟩,  -- 0x7C: ld a,h (M:1 T:4 steps:1)
  ⟨0x0000000000000002, 0x00C4⟩,  -- 0x7D: ld a,l (M:1 T:4 steps:1)
  ⟨0x0000000400000016, 0x00C5⟩,  -- 0x7E: ld a,(hl) (M:2 T:7 steps:3)
  ⟨0x0000000000000002, 0x00C8⟩  -- 0x7F: ld a,a (M:1 T:4 steps:1)
]

def z80_opstate_chunk4 : List z80_opstate_t := [
  ⟨0x0000000000000002, 0x00C9⟩,  -- 0x80: add b (M:1 T:4 steps:1)
  ⟨0x0000000000000002, 0x00CA⟩,  -- 0x81: add c (M:1 T:4 steps:1)
  ⟨0x0000000000000002, 0x00CB⟩,  -- 0x82: add d (M:1 T:4 steps:1)
  ⟨0x0000000000000002, 0x00CC⟩,  -- 0x83: add e (M:1 T:4 steps:1)
  ⟨0x0000000000000002, 0x00CD⟩,  -- 0x84: add h (M:1 T:4 steps:1)
  ⟨0x0000000000000002, 0x00CE⟩,  -- 0x85: add l (M:1 T:4 steps:1)
  ⟨0x0000000400000016, 0x00CF⟩,  -- 0x86: add (hl) (M:2 T:7 steps:3)
  ⟨0x0000000000000002, 0x00D2⟩,  -- 0x87: add a (M:1 T:4 steps:1)
  ⟨0x0000000000000002, 0x00D3⟩,  -- 0x88: adc b (M:1 T:4 steps:1)
  ⟨0x0000000000000002, 0x00D4⟩,  -- 0x89: adc c (M:1 T:4 steps:1)
  ⟨0x0000000000000002, 0x00D5⟩,  -- 0x8A: adc d (M:1 T:4 steps:1)
  ⟨0x0000000000000002, 0x00D6⟩,  -- 0x8B: adc e (M:1 T:4 steps:1)
  ⟨0x0000000000000002, 0x00D7⟩,  -- 0x8C: adc h (M:1 T:4 steps:1)
  ⟨0x0000000000000002, 0x00D8⟩,  -- 0x8D: adc l (M:1 T:4 steps:1)
  ⟨0x0000000400000016, 0x00D9⟩,  -- 0x8E: adc (hl) (M:2 T:7 steps:3)
  ⟨0x0000000000000002, 0x00DC⟩,  -- 0x8F: adc a (M:1 T:4 steps:1)
  ⟨0x0000000000000002, 0x00DD⟩,  -- 0x90: sub b (M:1 T:4 steps:1)
  ⟨0x0000000000000002, 0x00DE⟩,  -- 0x91: sub c (M:1 T:4 steps:1)
  ⟨0x0000000000000002, 0x00DF⟩,  -- 0x92: sub d (M:1 T:4 steps:1)
  ⟨0x0000000000000002, 0x00E0⟩,  -- 0x93: sub e (M:1 T:4 steps:1)
  ⟨0x0000000000000002, 0x00E1⟩,  -- 0x94: sub h (M:1 T:4 steps:1)
  ⟨0x0000000000000002, 0x00E2⟩,  -- 0x95: sub l (M:1 T:4 steps:1)
  ⟨0x0000000400000016, 0x00E3⟩,  -- 0x96: sub (hl) (M:2 T:7 steps:3)
  ⟨0x0000000000000002, 0x00E6⟩,  -- 0x97: sub a (M:1 T:4 steps:1)
  ⟨0x0000000000000002, 0x00E7⟩,  -- 0x98: sbc b (M:1 T:4 steps:1)
  ⟨0x0000000000000002, 0x00E8⟩,  -- 0x99: sbc c (M:1 T:4 steps:1)
  ⟨0x0000000000000002, 0x00E9⟩,  -- 0x9A: sbc d (M:1 T:4 steps:1)
  ⟨0x0000000000000002, 0x00EA⟩,  -- 0x9B: sbc e (M:1 T:4 steps:1)
  ⟨0x0000000000000002, 0x00EB⟩,  -- 0x9C: sbc h (M:1 T:4 steps:1)
  ⟨0x0000000000000002, 0x00EC⟩,  -- 0x9D: sbc l (M:1 T:4 steps:1)
  ⟨0x0000000400000016, 0x00ED⟩,  -- 0x9E: sbc (hl) (M:2 T:7 steps:3)
  ⟨0x0000000000000002, 0x00F0⟩  -- 0x9F: sbc a (M:1 T:4 steps:1)
]

def z80_opstate_chunk5 : List z80_opstate_t := [
  ⟨0x0000000000000002, 0x00F1⟩,  -- 0xA0: and b (M:1 T:4 steps:1)
  ⟨0x0000000000000002, 0x00F2⟩,  -- 0xA1: and c (M:1 T:4 steps:1)
  ⟨0x0000000000000002, 0x00F3⟩,  -- 0xA2: and d (M:1 T:4 steps:1)
  ⟨0x0000000000000002, 0x00F4⟩,  -- 0xA3: and e (M:1 T:4 steps:1)
  ⟨0x0000000000000002, 0x00F5⟩,  -- 0xA4: and h (M:1 T:4 steps:1)
  ⟨0x0000000000000002, 0x00F6⟩,  -- 0xA5: and l (M:1 T:4 steps:1)
  ⟨0x0000000400000016, 0x00F7⟩,  -- 0xA6: and (hl) (M:2 T:7 steps:3)
  ⟨0x0000000000000002, 0x00FA⟩,  -- 0xA7: and a (M:1 T:4 steps:1)
  ⟨0x0000000000000002, 0x00FB⟩,  -- 0xA8: xor b (M:1 T:4 steps:1)
  ⟨0x0000000000000002, 0x00FC⟩,  -- 0xA9: xor c (M:1 T:4 steps:1)
  ⟨0x0000000000000002, 0x00FD⟩,  -- 0xAA: xor d (M:1 T:4 steps:1)
  ⟨0x0000000000000002, 0x00FE⟩,  -- 0xAB: xor e (M:1 T:4 steps:1)
  ⟨0x0000000000000002, 0x00FF⟩,  -- 0xAC: xor h (M:1 T:4 steps:1)
  ⟨0x0000000000000002, 0x0100⟩,  -- 0xAD: xor l (M:1 T:4 steps:1)
  ⟨0x0000000400000016, 0x0101⟩,  -- 0xAE: xor (hl) (M:2 T:7 steps:3)
  ⟨0x0000000000000002, 0x0104⟩,  -- 0xAF: xor a (M:1 T:4 steps:1)
  ⟨0x0000000000000002, 0x0105⟩,  -- 0xB0: or b (M:1 T:4 steps:1)
  ⟨0x0000000000000002, 0x0106⟩,  -- 0xB1: or c (M:1 T:4 steps:1)
  ⟨0x0000000000000002, 0x0107⟩,  -- 0xB2: or d (M:1 T:4 steps:1)
  ⟨0x0000000000000002, 0x0108⟩,  -- 0xB3: or e (M:1 T:4 steps:1)
  ⟨0x0000000000000002, 0x0109⟩,  -- 0xB4: or h (M:1 T:4 steps:1)
  ⟨0x0000000000000002, 0x010A⟩,  -- 0xB5: or l (M:1 T:4 steps:1)
  ⟨0x0000000400000016, 0x010B⟩,  -- 0xB6: or (hl) (M:2 T:7 steps:3)
  ⟨0x0000000000000002, 0x010E⟩,  -- 0xB7: or a (M:1 T:4 steps:1)
  ⟨0x0000000000000002, 0x010F⟩,  -- 0xB8: cp b (M:1 T:4 steps:1)
  ⟨0x0000000000000002, 0x0110⟩,  -- 0xB9: cp c (M:1 T:4 steps:1)
  ⟨0x0000000000000002, 0x0111⟩,  -- 0xBA: cp d (M:1 T:4 steps:1)
  ⟨0x0000000000000002, 0x0112⟩,  -- 0xBB: cp e (M:1 T:4 steps:1)
  ⟨0x0000000000000002, 0x0113⟩,  -- 0xBC: cp h (M:1 T:4 steps:1)
  ⟨0x0000000000000002, 0x0114⟩,  -- 0xBD: cp l (M:1 T:4 steps:1)
  ⟨0x0000000400000016, 0x0115⟩,  -- 0xBE: cp (hl) (M:2 T:7 steps:3)
  ⟨0x0000000000000002, 0x0118⟩  -- 0xBF: cp a (M:1 T:4 steps:1)
]

def z80_opstate_chunk6 : List z80_opstate_t := [
  ⟨0x0000000000000002, 0x0119⟩,  -- 0xC0: ret nz (M:1 T:4 steps:1)
  ⟨0x0000000000000002, 0x011A⟩,  -- 0xC1: pop bc2 (M:1 T:4 steps:1)
  ⟨0x0000000000000002, 0x011B⟩,  -- 0xC2: jp nz,nn (M:1 T:4 steps:1)
  ⟨0x0000000000000002, 0x011C⟩,  -- 0xC3: jp nn (M:1 T:4 steps:1)
  ⟨0x0000000000000002, 0x011D⟩,  -- 0xC4: call nz,nn (M:1 T:4 steps:1)
  ⟨0x0000000000000002, 0x011E⟩,  -- 0xC5: push bc2 (M:1 T:4 steps:1)
  ⟨0x0000000000000002, 0x011F⟩,  -- 0xC6: add n (M:1 T:4 steps:1)
  ⟨0x0000000000000002, 0x0120⟩,  -- 0xC7: rst 0h (M:1 T:4 steps:1)
  ⟨0x0000000000000002, 0x0121⟩,  -- 0xC8: ret z (M:1 T:4 steps:1)
  ⟨0x0000000000000002, 0x0122⟩,  -- 0xC9: ret (M:1 T:4 steps:1)
  ⟨0x0000000000000002, 0x0123⟩,  -- 0xCA: jp z,nn (M:1 T:4 steps:1)
  ⟨0x0000000000000002, 0x0124⟩,  -- 0xCB: cb prefix (M:1 T:4 steps:1)
  ⟨0x0000000000000002, 0x0125⟩,  -- 0xCC: call z,nn (M:1 T:4 steps:1)
  ⟨0x0000000000000002, 0x0126⟩,  -- 0xCD: call nn (M:1 T:4 steps:1)
  ⟨0x0000000000000002, 0x0127⟩,  -- 0xCE: adc n (M:1 T:4 steps:1)
  ⟨0x0000000000000002, 0x0128⟩,  -- 0xCF: rst 8h (M:1 T:4 steps:1)
  ⟨0x0000000000000002, 0x0129⟩,  -- 0xD0: ret nc (M:1 T:4 steps:1)
  ⟨0x0000000000000002, 0x012A⟩,  -- 0xD1: pop de2 (M:1 T:4 steps:1)
  ⟨0x0000000000000002, 0x012B⟩,  -- 0xD2: jp nc,nn (M:1 T:4 steps:1)
  ⟨0x0000000000000002, 0x012C⟩,  -- 0xD3: out (n),a (M:1 T:4 steps:1)
  ⟨0x0000000000000002, 0x012D⟩,  -- 0xD4: call nc,nn (M:1 T:4 steps:1)
  ⟨0x0000000000000002, 0x012E⟩,  -- 0xD5: push de2 (M:1 T:4 steps:1)
  ⟨0x0000000000000002, 0x012F⟩,  -- 0xD6: sub n (M:1 T:4 steps:1)
  ⟨0x0000000000000002, 0x0130⟩,  -- 0xD7: rst 10h (M:1 T:4 steps:1)
  ⟨0x0000000000000002, 0x0131⟩,  -- 0xD8: ret c (M:1 T:4 steps:1)
  ⟨0x0000000000000002, 0x0132⟩,  -- 0xD9: exx (M:1 T:4 steps:1)
  ⟨0x0000000000000002, 0x0133⟩,  -- 0xDA: jp c,nn (M:1 T:4 steps:1)
  ⟨0x0000000000000002, 0x0134⟩,  -- 0xDB: in a,(n) (M:1 T:4 steps:1)
  ⟨0x0000000000000002, 0x0135⟩,  -- 0xDC: call c,nn (M:1 T:4 steps:1)
  ⟨0x0000000000000002, 0x0136⟩,  -- 0xDD: dd prefix (M:1 T:4 steps:1)
  ⟨0x0000000000000002, 0x0137⟩,  -- 0xDE: sbc n (M:1 T:4 steps:1)
  ⟨0x0000000000000002, 0x0138⟩  -- 0xDF: rst 18h (M:1 T:4 steps:1)
]

def z80_opstate_chunk7 : List z80_opstate_t := [
  ⟨0x0000000000000002, 0x0139⟩,  -- 0xE0: ret po (M:1 T:4 steps:1)
  ⟨0x0000000000000002, 0x013A⟩,  -- 0xE1: pop hl2 (M:1 T:4 steps:1)
  ⟨0x0000000000000002, 0x013B⟩,  -- 0xE2: jp po,nn (M:1 T:4 steps:1)
  ⟨0x0000000000000002, 0x013C⟩,  -- 0xE3: ex (sp),hl (M:1 T:4 steps:1)
  ⟨0x0000000000000002, 0x013D⟩,  -- 0xE4: call po,nn (M:1 T:4 steps:1)
  ⟨0x0000000000000002, 0x013E⟩,  -- 0xE5: push hl2 (M:1 T:4 steps:1)
  ⟨0x0000000000000002, 0x013F⟩,  -- 0xE6: and n (M:1 T:4 steps:1)
  ⟨0x0000000000000002, 0x0140⟩,  -- 0xE7: rst 20h (M:1 T:4 steps:1)
  ⟨0x0000000000000002, 0x0141⟩,  -- 0xE8: ret pe (M:1 T:4 steps:1)
  ⟨0x0000000000000002, 0x0142⟩,  -- 0xE9: jp hl (M:1 T:4 steps:1)
  ⟨0x0000000000000002, 0x0143⟩,  -- 0xEA: jp pe,nn (M:1 T:4 steps:1)
  ⟨0x0000000000000002, 0x0144⟩,  -- 0xEB: ex de,hl (M:1 T:4 steps:1)
  ⟨0x0000000000000002, 0x0145⟩,  -- 0xEC: call pe,nn (M:1 T:4 steps:1)
  ⟨0x0000000000000002, 0x0146⟩,  -- 0xED: ed prefix (M:1 T:4 steps:1)
  ⟨0x0000000000000002, 0x0147⟩,  -- 0xEE: xor n (M:1 T:4 steps:1)
  ⟨0x0000000000000002, 0x0148⟩,  -- 0xEF: rst 28h (M:1 T:4 steps:1)
  ⟨0x0000000000000002, 0x0149⟩,  -- 0xF0: ret p (M:1 T:4 steps:1)
  ⟨0x0000000000000002, 0x014A⟩,  -- 0xF1: pop sp2 (M:1 T:4 steps:1)
  ⟨0x0000000000000002, 0x014B⟩,  -- 0xF2: jp p,nn (M:1 T:4 steps:1)
  ⟨0x0000000000000002, 0x014C⟩,  -- 0xF3: di (M:1 T:4 steps:1)
  ⟨0x0000000000000002, 0x014D⟩,  -- 0xF4: call p,nn (M:1 T:4 steps:1)
  ⟨0x0000000000000002, 0x014E⟩,  -- 0xF5: push sp2 (M:1 T:4 steps:1)
  ⟨0x0000000000000002, 0x014F⟩,  -- 0xF6: or n (M:1 T:4 steps:1)
  ⟨0x0000000000000002, 0x0150⟩,  -- 0xF7: rst 30h (M:1 T:4 steps:1)
  ⟨0x0000000000000002, 0x0151⟩,  -- 0xF8: ret m (M:1 T:4 steps:1)
  ⟨0x0000000000000002, 0x0152⟩,  -- 0xF9: ld sp,hl (M:1 T:4 steps:1)
  ⟨0x0000000000000002, 0x0153⟩,  -- 0xFA: jp m,nn (M:1 T:4 steps:1)
  ⟨0x0000000000000002, 0x0154⟩,  -- 0xFB: ei (M:1 T:4 steps:1)
  ⟨0x0000000000000002, 0x0155⟩,  -- 0xFC: call m,nn (M:1 T:4 steps:1)
  ⟨0x0000000000000002, 0x0156⟩,  -- 0xFD: fd prefix (M:1 T:4 steps:1)
  ⟨0x0000000000000002, 0x0157⟩,  -- 0xFE: cp n (M:1 T:4 steps:1)
  ⟨0x0000000000000002, 0x0158⟩  -- 0xFF: rst 38h (M:1 T:4 steps:1)
]

def z80_opstate_table : List z80_opstate_t :=
  z80_opstate_chunk0 ++ z80_opstate_chunk1 ++ z80_opstate_chunk2 ++ z80_opstate_chunk3 ++ z80_opstate_chunk4 ++ z80_opstate_chunk5 ++ z80_opstate_chunk6 ++ z80_opstate_chunk7

inductive AluK where
  | aAdd | aAdc | aSub | aSbc | aAnd | aXor | aOr
deriving Repr, DecidableEq

def z80_alu_fn : AluK → z80_t → Nat → z80_t × Nat
  | .aAdd => z80_add
  | .aAdc => z80_adc
  | .aSub => z80_sub
  | .aSbc => z80_sbc
  | .aAnd => z80_and
  | .aXor => z80_xor
  | .aOr => z80_or

/-- One micro-step of the decoder: one constructor per distinct `case`-body
statement shape of the `switch` in `z80_tick`. -/
inductive MStep where
  | latchIR                         -- cpu->ir = _gd();
  | decodeRefresh                   -- cpu->op = z80_opstate_table[cpu->ir]; pins = z80_refresh(cpu, pins);
  | fetch                           -- _fetch();
  | movFetch (dst src : Reg8)       -- cpu->DST=cpu->SRC;_fetch();
  | aluFetch (k : AluK) (src : Reg8) -- cpu->a=z80_ALU(cpu,cpu->SRC);_fetch();
  | cpFetch (src : Reg8)            -- z80_cp(cpu,cpu->SRC);_fetch();
  | haltFetch                       -- z80_halt(cpu);_fetch();
  | mreadPC                         -- _mread(cpu->pc++);
  | mreadHL                         -- _mread(cpu->hl);
  | mreadBCwz                       -- _mread(cpu->bc);cpu->wz=cpu->bc+1;
  | mreadDEwz                       -- _mread(cpu->de);cpu->wz=cpu->de+1;
  | mreadWZinc                      -- _mread(cpu->wz++);
  | latchR (dst : Reg8)             -- cpu->DST=_gd();
  | mwriteHL (src : Reg8)           -- _mwrite(cpu->hl,cpu->SRC);
  | mwriteBCa                       -- _mwrite(cpu->bc,cpu->a);cpu->wzl=cpu->c+1;cpu->wzh=cpu->a;
  | mwriteDEa                       -- _mwrite(cpu->de,cpu->a);cpu->wzl=cpu->e+1;cpu->wzh=cpu->a;
  | mwriteWZa                       -- _mwrite(cpu->wz++,cpu->a);cpu->wzh=cpu->a;
  | noAct                           -- default: no case body
deriving Repr, DecidableEq

/-- Interpreter for one micro-step, exactly the corresponding `case` body. -/
def z80_exec (m : MStep) (cpu : z80_t) (pins : Nat) : z80_t × Nat :=
  match m with
  | .latchIR => ({cpu with ir := z80_get_db pins}, pins)
  | .decodeRefresh =>
      z80_refresh {cpu with op := z80_opstate_table.getD cpu.ir ⟨0, 0⟩} pins
  | .fetch => z80_fetch cpu pins
  | .movFetch dst src => z80_fetch (z80_set8 dst (z80_get8 src cpu) cpu) pins
  | .aluFetch k src =>
      let res := z80_alu_fn k cpu (z80_get8 src cpu)
      z80_fetch (z80_set8 .a res.2 res.1) pins
  | .cpFetch src => z80_fetch (z80_cp cpu (z80_get8 src cpu)) pins
  | .haltFetch => z80_fetch (z80_halt cpu) pins
  | .mreadPC =>
      ({cpu with pc := (cpu.pc + 1) % 65536},
       z80_set_ab_x pins cpu.pc (Z80_MREQ ||| Z80_RD))
  | .mreadHL => (cpu, z80_set_ab_x pins cpu.hl (Z80_MREQ ||| Z80_RD))
  | .mreadBCwz =>
      ({cpu with wz := (cpu.bc + 1) % 65536},
       z80_set_ab_x pins cpu.bc (Z80_MREQ ||| Z80_RD))
  | .mreadDEwz =>
      ({cpu with wz := (cpu.de + 1) % 65536},
       z80_set_ab_x pins cpu.de (Z80_MREQ ||| Z80_RD))
  | .mreadWZinc =>
      ({cpu with wz := (cpu.wz + 1) % 65536},
       z80_set_ab_x pins cpu.wz (Z80_MREQ ||| Z80_RD))
  | .latchR dst => (z80_set8 dst (z80_get_db pins) cpu, pins)
  | .mwriteHL src =>
      (cpu, z80_set_ab_db_x pins cpu.hl (z80_get8 src cpu) (Z80_MREQ ||| Z80_WR))
  | .mwriteBCa =>
      let p := z80_set_ab_db_x pins cpu.bc (z80_get8 .a cpu) (Z80_MREQ ||| Z80_WR)
      (z80_set8 .wzh (z80_get8 .a cpu) (z80_set8 .wzl (z80_get8 .c cpu + 1) cpu), p)
  | .mwriteDEa =>
      let p := z80_set_ab_db_x pins cpu.de (z80_get8 .a cpu) (Z80_MREQ ||| Z80_WR)
      (z80_set8 .wzh (z80_get8 .a cpu) (z80_set8 .wzl (z80_get8 .e cpu + 1) cpu), p)
  | .mwriteWZa =>
      let p := z80_set_ab_db_x pins cpu.wz (z80_get8 .a cpu) (Z80_MREQ ||| Z80_WR)
      (z80_set8 .wzh (z80_get8 .a cpu) {cpu with wz := (cpu.wz + 1) % 65536}, p)
  | .noAct => (cpu, pins)
def z80_case_chunk0 : List MStep := [
  .latchIR,  -- case 0x0000: { cpu->ir = _gd(); // FIXME: handle prefixes, }
  .decodeRefresh,  -- case 0x0001: { cpu->op = z80_opstate_table[cpu->ir]; pins = z80_refresh(cpu, pins); }
  .fetch,  -- case 0x0002: _fetch();
  .mreadPC,  -- case 0x0003: _mread(cpu->pc++);
  .latchR .c,  -- case 0x0004: cpu->c=_gd();
  .mreadPC,  -- case 0x0005: _mread(cpu->pc++);
  .latchR .b,  -- case 0x0006: cpu->b=_gd();
  .fetch,  -- case 0x0007: _fetch();
  .mwriteBCa,  -- case 0x0008: _mwrite(cpu->bc,cpu->a);cpu->wzl=cpu->c+1;cpu->wzh=cpu->a;
  .fetch,  -- case 0x0009: _fetch();
  .fetch,  -- case 0x000A: _fetch();
  .fetch,  -- case 0x000B: _fetch();
  .fetch,  -- case 0x000C: _fetch();
  .mreadPC,  -- case 0x000D: _mread(cpu->pc++);
  .latchR .b,  -- case 0x000E: cpu->b=_gd();
  .fetch,  -- case 0x000F: _fetch();
  .fetch,  -- case 0x0010: _fetch();
  .fetch,  -- case 0x0011: _fetch();
  .fetch,  -- case 0x0012: _fetch();
  .mreadBCwz,  -- case 0x0013: _mread(cpu->bc);cpu->wz=cpu->bc+1;
  .latchR .a,  -- case 0x0014: cpu->a=_gd();
  .fetch,  -- case 0x0015: _fetch();
  .fetch,  -- case 0x0016: _fetch();
  .fetch,  -- case 0x0017: _fetch();
  .fetch,  -- case 0x0018: _fetch();
  .mreadPC,  -- case 0x0019: _mread(cpu->pc++);
  .latchR .c,  -- case 0x001A: cpu->c=_gd();
  .fetch,  -- case 0x001B: _fetch();
  .fetch,  -- case 0x001C: _fetch();
  .fetch,  -- case 0x001D: _fetch();
  .mreadPC,  -- case 0x001E: _mread(cpu->pc++);
  .latchR .e  -- case 0x001F: cpu->e=_gd();
]

def z80_case_chunk1 : List MStep := [
  .mreadPC,  -- case 0x0020: _mread(cpu->pc++);
  .latchR .d,  -- case 0x0021: cpu->d=_gd();
  .fetch,  -- case 0x0022: _fetch();
  .mwriteDEa,  -- case 0x0023: _mwrite(cpu->de,cpu->a);cpu->wzl=cpu->e+1;cpu->wzh=cpu->a;
  .fetch,  -- case 0x0024: _fetch();
  .fetch,  -- case 0x0025: _fetch();
  .fetch,  -- case 0x0026: _fetch();
  .fetch,  -- case 0x0027: _fetch();
  .mreadPC,  -- case 0x0028: _mread(cpu->pc++);
  .latchR .d,  -- case 0x0029: cpu->d=_gd();
  .fetch,  -- case 0x002A: _fetch();
  .fetch,  -- case 0x002B: _fetch();
  .fetch,  -- case 0x002C: _fetch();
  .fetch,  -- case 0x002D: _fetch();
  .mreadDEwz,  -- case 0x002E: _mread(cpu->de);cpu->wz=cpu->de+1;
  .latchR .a,  -- case 0x002F: cpu->a=_gd();
  .fetch,  -- case 0x0030: _fetch();
  .fetch,  -- case 0x0031: _fetch();
  .fetch,  -- case 0x0032: _fetch();
  .fetch,  -- case 0x0033: _fetch();
  .mreadPC,  -- case 0x0034: _mread(cpu->pc++);
  .latchR .e,  -- case 0x0035: cpu->e=_gd();
  .fetch,  -- case 0x0036: _fetch();
  .fetch,  -- case 0x0037: _fetch();
  .fetch,  -- case 0x0038: _fetch();
  .mreadPC,  -- case 0x0039: _mread(cpu->pc++);
  .latchR .l,  -- case 0x003A: cpu->l=_gd();
  .mreadPC,  -- case 0x003B: _mread(cpu->pc++);
  .latchR .h,  -- case 0x003C: cpu->h=_gd();
  .fetch,  -- case 0x003D: _fetch();
  .fetch,  -- case 0x003E: _fetch();
  .fetch  -- case 0x003F: _fetch();
]

def z80_case_chunk2 : List MStep := [
  .fetch,  -- case 0x0040: _fetch();
  .fetch,  -- case 0x0041: _fetch();
  .mreadPC,  -- case 0x0042: _mread(cpu->pc++);
  .latchR .h,  -- case 0x0043: cpu->h=_gd();
  .fetch,  -- case 0x0044: _fetch();
  .fetch,  -- case 0x0045: _fetch();
  .fetch,  -- case 0x0046: _fetch();
  .fetch,  -- case 0x0047: _fetch();
  .fetch,  -- case 0x0048: _fetch();
  .fetch,  -- case 0x0049: _fetch();
  .fetch,  -- case 0x004A: _fetch();
  .fetch,  -- case 0x004B: _fetch();
  .mreadPC,  -- case 0x004C: _mread(cpu->pc++);
  .latchR .l,  -- case 0x004D: cpu->l=_gd();
  .fetch,  -- case 0x004E: _fetch();
  .fetch,  -- case 0x004F: _fetch();
  .fetch,  -- case 0x0050: _fetch();
  .mreadPC,  -- case 0x0051: _mread(cpu->pc++);
  .latchR .spl,  -- case 0x0052: cpu->spl=_gd();
  .mreadPC,  -- case 0x0053: _mread(cpu->pc++);
  .latchR .sph,  -- case 0x0054: cpu->sph=_gd();
  .fetch,  -- case 0x0055: _fetch();
  .mreadPC,  -- case 0x0056: _mread(cpu->pc++);
  .latchR .wzl,  -- case 0x0057: cpu->wzl=_gd();
  .mreadPC,  -- case 0x0058: _mread(cpu->pc++);
  .latchR .wzh,  -- case 0x0059: cpu->wzh=_gd();
  .mwriteWZa,  -- case 0x005A: _mwrite(cpu->wz++,cpu->a);cpu->wzh=cpu->a;
  .fetch,  -- case 0x005B: _fetch();
  .fetch,  -- case 0x005C: _fetch();
  .fetch,  -- case 0x005D: _fetch();
  .fetch,  -- case 0x005E: _fetch();
  .mreadPC  -- case 0x005F: _mread(cpu->pc++);
]

def z80_case_chunk3 : List MStep := [
  .latchR .dlatch,  -- case 0x0060: cpu->dlatch=_gd();
  .mwriteHL .dlatch,  -- case 0x0061: _mwrite(cpu->hl,cpu->dlatch);
  .fetch,  -- case 0x0062: _fetch();
  .fetch,  -- case 0x0063: _fetch();
  .fetch,  -- case 0x0064: _fetch();
  .fetch,  -- case 0x0065: _fetch();
  .mreadPC,  -- case 0x0066: _mread(cpu->pc++);
  .latchR .wzl,  -- case 0x0067: cpu->wzl=_gd();
  .mreadPC,  -- case 0x0068: _mread(cpu->pc++);
  .latchR .wzh,  -- case 0x0069: cpu->wzh=_gd();
  .mreadWZinc,  -- case 0x006A: _mread(cpu->wz++);
  .latchR .a,  -- case 0x006B: cpu->a=_gd();
  .fetch,  -- case 0x006C: _fetch();
  .fetch,  -- case 0x006D: _fetch();
  .fetch,  -- case 0x006E: _fetch();
  .fetch,  -- case 0x006F: _fetch();
  .mreadPC,  -- case 0x0070: _mread(cpu->pc++);
  .latchR .a,  -- case 0x0071: cpu->a=_gd();
  .fetch,  -- case 0x0072: _fetch();
  .fetch,  -- case 0x0073: _fetch();
  .movFetch .b .b,  -- case 0x0074: cpu->b=cpu->b;_fetch();
  .movFetch .b .c,  -- case 0x0075: cpu->b=cpu->c;_fetch();
  .movFetch .b .d,  -- case 0x0076: cpu->b=cpu->d;_fetch();
  .movFetch .b .e,  -- case 0x0077: cpu->b=cpu->e;_fetch();
  .movFetch .b .h,  -- case 0x0078: cpu->b=cpu->h;_fetch();
  .movFetch .b .l,  -- case 0x0079: cpu->b=cpu->l;_fetch();
  .mreadHL,  -- case 0x007A: _mread(cpu->hl);
  .latchR .b,  -- case 0x007B: cpu->b=_gd();
  .fetch,  -- case 0x007C: _fetch();
  .movFetch .b .a,  -- case 0x007D: cpu->b=cpu->a;_fetch();
  .movFetch .c .b,  -- case 0x007E: cpu->c=cpu->b;_fetch();
  .movFetch .c .c  -- case 0x007F: cpu->c=cpu->c;_fetch();
]

def z80_case_chunk4 : List MStep := [
  .movFetch .c .d,  -- case 0x0080: cpu->c=cpu->d;_fetch();
  .movFetch .c .e,  -- case 0x0081: cpu->c=cpu->e;_fetch();
  .movFetch .c .h,  -- case 0x0082: cpu->c=cpu->h;_fetch();
  .movFetch .c .l,  -- case 0x0083: cpu->c=cpu->l;_fetch();
  .mreadHL,  -- case 0x0084: _mread(cpu->hl);
  .latchR .c,  -- case 0x0085: cpu->c=_gd();
  .fetch,  -- case 0x0086: _fetch();
  .movFetch .c .a,  -- case 0x0087: cpu->c=cpu->a;_fetch();
  .movFetch .d .b,  -- case 0x0088: cpu->d=cpu->b;_fetch();
  .movFetch .d .c,  -- case 0x0089: cpu->d=cpu->c;_fetch();
  .movFetch .d .d,  -- case 0x008A: cpu->d=cpu->d;_fetch();
  .movFetch .d .e,  -- case 0x008B: cpu->d=cpu->e;_fetch();
  .movFetch .d .h,  -- case 0x008C: cpu->d=cpu->h;_fetch();
  .movFetch .d .l,  -- case 0x008D: cpu->d=cpu->l;_fetch();
  .mreadHL,  -- case 0x008E: _mread(cpu->hl);
  .latchR .d,  -- case 0x008F: cpu->d=_gd();
  .fetch,  -- case 0x0090: _fetch();
  .movFetch .d .a,  -- case 0x0091: cpu->d=cpu->a;_fetch();
  .movFetch .e .b,  -- case 0x0092: cpu->e=cpu->b;_fetch();
  .movFetch .e .c,  -- case 0x0093: cpu->e=cpu->c;_fetch();
  .movFetch .e .d,  -- case 0x0094: cpu->e=cpu->d;_fetch();
  .movFetch .e .e,  -- case 0x0095: cpu->e=cpu->e;_fetch();
  .movFetch .e .h,  -- case 0x0096: cpu->e=cpu->h;_fetch();
  .movFetch .e .l,  -- case 0x0097: cpu->e=cpu->l;_fetch();
  .mreadHL,  -- case 0x0098: _mread(cpu->hl);
  .latchR .e,  -- case 0x0099: cpu->e=_gd();
  .fetch,  -- case 0x009A: _fetch();
  .movFetch .e .a,  -- case 0x009B: cpu->e=cpu->a;_fetch();
  .movFetch .h .b,  -- case 0x009C: cpu->h=cpu->b;_fetch();
  .movFetch .h .c,  -- case 0x009D: cpu->h=cpu->c;_fetch();
  .movFetch .h .d,  -- case 0x009E: cpu->h=cpu->d;_fetch();
  .movFetch .h .e  -- case 0x009F: cpu->h=cpu->e;_fetch();
]

def z80_case_chunk5 : List MStep := [
  .movFetch .h .h,  -- case 0x00A0: cpu->h=cpu->h;_fetch();
  .movFetch .h .l,  -- case 0x00A1: cpu->h=cpu->l;_fetch();
  .mreadHL,  -- case 0x00A2: _mread(cpu->hl);
  .latchR .h,  -- case 0x00A3: cpu->h=_gd();
  .fetch,  -- case 0x00A4: _fetch();
  .movFetch .h .a,  -- case 0x00A5: cpu->h=cpu->a;_fetch();
  .movFetch .l .b,  -- case 0x00A6: cpu->l=cpu->b;_fetch();
  .movFetch .l .c,  -- case 0x00A7: cpu->l=cpu->c;_fetch();
  .movFetch .l .d,  -- case 0x00A8: cpu->l=cpu->d;_fetch();
  .movFetch .l .e,  -- case 0x00A9: cpu->l=cpu->e;_fetch();
  .movFetch .l .h,  -- case 0x00AA: cpu->l=cpu->h;_fetch();
  .movFetch .l .l,  -- case 0x00AB: cpu->l=cpu->l;_fetch();
  .mreadHL,  -- case 0x00AC: _mread(cpu->hl);
  .latchR .l,  -- case 0x00AD: cpu->l=_gd();
  .fetch,  -- case 0x00AE: _fetch();
  .movFetch .l .a,  -- case 0x00AF: cpu->l=cpu->a;_fetch();
  .mwriteHL .b,  -- case 0x00B0: _mwrite(cpu->hl,cpu->b);
  .fetch,  -- case 0x00B1: _fetch();
  .mwriteHL .c,  -- case 0x00B2: _mwrite(cpu->hl,cpu->c);
  .fetch,  -- case 0x00B3: _fetch();
  .mwriteHL .d,  -- case 0x00B4: _mwrite(cpu->hl,cpu->d);
  .fetch,  -- case 0x00B5: _fetch();
  .mwriteHL .e,  -- case 0x00B6: _mwrite(cpu->hl,cpu->e);
  .fetch,  -- case 0x00B7: _fetch();
  .mwriteHL .h,  -- case 0x00B8: _mwrite(cpu->hl,cpu->h);
  .fetch,  -- case 0x00B9: _fetch();
  .mwriteHL .l,  -- case 0x00BA: _mwrite(cpu->hl,cpu->l);
  .fetch,  -- case 0x00BB: _fetch();
  .haltFetch,  -- case 0x00BC: z80_halt(cpu);_fetch();
  .mwriteHL .a,  -- case 0x00BD: _mwrite(cpu->hl,cpu->a);
  .fetch,  -- case 0x00BE: _fetch();
  .movFetch .a .b  -- case 0x00BF: cpu->a=cpu->b;_fetch();
]

def z80_case_chunk6 : List MStep := [
  .movFetch .a .c,  -- case 0x00C0: cpu->a=cpu->c;_fetch();
  .movFetch .a .d,  -- case 0x00C1: cpu->a=cpu->d;_fetch();
  .movFetch .a .e,  -- case 0x00C2: cpu->a=cpu->e;_fetch();
  .movFetch .a .h,  -- case 0x00C3: cpu->a=cpu->h;_fetch();
  .movFetch .a .l,  -- case 0x00C4: cpu->a=cpu->l;_fetch();
  .mreadHL,  -- case 0x00C5: _mread(cpu->hl);
  .latchR .a,  -- case 0x00C6: cpu->a=_gd();
  .fetch,  -- case 0x00C7: _fetch();
  .movFetch .a .a,  -- case 0x00C8: cpu->a=cpu->a;_fetch();
  .aluFetch .aAdd .b,  -- case 0x00C9: cpu->a=z80_add(cpu,cpu->b);_fetch();
  .aluFetch .aAdd .c,  -- case 0x00CA: cpu->a=z80_add(cpu,cpu->c);_fetch();
  .aluFetch .aAdd .d,  -- case 0x00CB: cpu->a=z80_add(cpu,cpu->d);_fetch();
  .aluFetch .aAdd .e,  -- case 0x00CC: cpu->a=z80_add(cpu,cpu->e);_fetch();
  .aluFetch .aAdd .h,  -- case 0x00CD: cpu->a=z80_add(cpu,cpu->h);_fetch();
  .aluFetch .aAdd .l,  -- case 0x00CE: cpu->a=z80_add(cpu,cpu->l);_fetch();
  .mreadHL,  -- case 0x00CF: _mread(cpu->hl);
  .latchR .dlatch,  -- case 0x00D0: cpu->dlatch=_gd();
  .aluFetch .aAdd .dlatch,  -- case 0x00D1: cpu->a=z80_add(cpu,cpu->dlatch);_fetch();
  .aluFetch .aAdd .a,  -- case 0x00D2: cpu->a=z80_add(cpu,cpu->a);_fetch();
  .aluFetch .aAdc .b,  -- case 0x00D3: cpu->a=z80_adc(cpu,cpu->b);_fetch();
  .aluFetch .aAdc .c,  -- case 0x00D4: cpu->a=z80_adc(cpu,cpu->c);_fetch();
  .aluFetch .aAdc .d,  -- case 0x00D5: cpu->a=z80_adc(cpu,cpu->d);_fetch();
  .aluFetch .aAdc .e,  -- case 0x00D6: cpu->a=z80_adc(cpu,cpu->e);_fetch();
  .aluFetch .aAdc .h,  -- case 0x00D7: cpu->a=z80_adc(cpu,cpu->h);_fetch();
  .aluFetch .aAdc .l,  -- case 0x00D8: cpu->a=z80_adc(cpu,cpu->l);_fetch();
  .mreadHL,  -- case 0x00D9: _mread(cpu->hl);
  .latchR .dlatch,  -- case 0x00DA: cpu->dlatch=_gd();
  .aluFetch .aAdc .dlatch,  -- case 0x00DB: cpu->a=z80_adc(cpu,cpu->dlatch);_fetch();
  .aluFetch .aAdc .a,  -- case 0x00DC: cpu->a=z80_adc(cpu,cpu->a);_fetch();
  .aluFetch .aSub .b,  -- case 0x00DD: cpu->a=z80_sub(cpu,cpu->b);_fetch();
  .aluFetch .aSub .c,  -- case 0x00DE: cpu->a=z80_sub(cpu,cpu->c);_fetch();
  .aluFetch .aSub .d  -- case 0x00DF: cpu->a=z80_sub(cpu,cpu->d);_fetch();
]

def z80_case_chunk7 : List MStep := [
  .aluFetch .aSub .e,  -- case 0x00E0: cpu->a=z80_sub(cpu,cpu->e);_fetch();
  .aluFetch .aSub .h,  -- case 0x00E1: cpu->a=z80_sub(cpu,cpu->h);_fetch();
  .aluFetch .aSub .l,  -- case 0x00E2: cpu->a=z80_sub(cpu,cpu->l);_fetch();
  .mreadHL,  -- case 0x00E3: _mread(cpu->hl);
  .latchR .dlatch,  -- case 0x00E4: cpu->dlatch=_gd();
  .aluFetch .aSub .dlatch,  -- case 0x00E5: cpu->a=z80_sub(cpu,cpu->dlatch);_fetch();
  .aluFetch .aSub .a,  -- case 0x00E6: cpu->a=z80_sub(cpu,cpu->a);_fetch();
  .aluFetch .aSbc .b,  -- case 0x00E7: cpu->a=z80_sbc(cpu,cpu->b);_fetch();
  .aluFetch .aSbc .c,  -- case 0x00E8: cpu->a=z80_sbc(cpu,cpu->c);_fetch();
  .aluFetch .aSbc .d,  -- case 0x00E9: cpu->a=z80_sbc(cpu,cpu->d);_fetch();
  .aluFetch .aSbc .e,  -- case 0x00EA: cpu->a=z80_sbc(cpu,cpu->e);_fetch();
  .aluFetch .aSbc .h,  -- case 0x00EB: cpu->a=z80_sbc(cpu,cpu->h);_fetch();
  .aluFetch .aSbc .l,  -- case 0x00EC: cpu->a=z80_sbc(cpu,cpu->l);_fetch();
  .mreadHL,  -- case 0x00ED: _mread(cpu->hl);
  .latchR .dlatch,  -- case 0x00EE: cpu->dlatch=_gd();
  .aluFetch .aSbc .dlatch,  -- case 0x00EF: cpu->a=z80_sbc(cpu,cpu->dlatch);_fetch();
  .aluFetch .aSbc .a,  -- case 0x00F0: cpu->a=z80_sbc(cpu,cpu->a);_fetch();
  .aluFetch .aAnd .b,  -- case 0x00F1: cpu->a=z80_and(cpu,cpu->b);_fetch();
  .aluFetch .aAnd .c,  -- case 0x00F2: cpu->a=z80_and(cpu,cpu->c);_fetch();
  .aluFetch .aAnd .d,  -- case 0x00F3: cpu->a=z80_and(cpu,cpu->d);_fetch();
  .aluFetch .aAnd .e,  -- case 0x00F4: cpu->a=z80_and(cpu,cpu->e);_fetch();
  .aluFetch .aAnd .h,  -- case 0x00F5: cpu->a=z80_and(cpu,cpu->h);_fetch();
  .aluFetch .aAnd .l,  -- case 0x00F6: cpu->a=z80_and(cpu,cpu->l);_fetch();
  .mreadHL,  -- case 0x00F7: _mread(cpu->hl);
  .latchR .dlatch,  -- case 0x00F8: cpu->dlatch=_gd();
  .aluFetch .aAnd .dlatch,  -- case 0x00F9: cpu->a=z80_and(cpu,cpu->dlatch);_fetch();
  .aluFetch .aAnd .a,  -- case 0x00FA: cpu->a=z80_and(cpu,cpu->a);_fetch();
  .aluFetch .aXor .b,  -- case 0x00FB: cpu->a=z80_xor(cpu,cpu->b);_fetch();
  .aluFetch .aXor .c,  -- case 0x00FC: cpu->a=z80_xor(cpu,cpu->c);_fetch();
  .aluFetch .aXor .d,  -- case 0x00FD: cpu->a=z80_xor(cpu,cpu->d);_fetch();
  .aluFetch .aXor .e,  -- case 0x00FE: cpu->a=z80_xor(cpu,cpu->e);_fetch();
  .aluFetch .aXor .h  -- case 0x00FF: cpu->a=z80_xor(cpu,cpu->h);_fetch();
]

def z80_case_chunk8 : List MStep := [
  .aluFetch .aXor .l,  -- case 0x0100: cpu->a=z80_xor(cpu,cpu->l);_fetch();
  .mreadHL,  -- case 0x0101: _mread(cpu->hl);
  .latchR .dlatch,  -- case 0x0102: cpu->dlatch=_gd();
  .aluFetch .aXor .dlatch,  -- case 0x0103: cpu->a=z80_xor(cpu,cpu->dlatch);_fetch();
  .aluFetch .aXor .a,  -- case 0x0104: cpu->a=z80_xor(cpu,cpu->a);_fetch();
  .aluFetch .aOr .b,  -- case 0x0105: cpu->a=z80_or(cpu,cpu->b);_fetch();
  .aluFetch .aOr .c,  -- case 0x0106: cpu->a=z80_or(cpu,cpu->c);_fetch();
  .aluFetch .aOr .d,  -- case 0x0107: cpu->a=z80_or(cpu,cpu->d);_fetch();
  .aluFetch .aOr .e,  -- case 0x0108: cpu->a=z80_or(cpu,cpu->e);_fetch();
  .aluFetch .aOr .h,  -- case 0x0109: cpu->a=z80_or(cpu,cpu->h);_fetch();
  .aluFetch .aOr .l,  -- case 0x010A: cpu->a=z80_or(cpu,cpu->l);_fetch();
  .mreadHL,  -- case 0x010B: _mread(cpu->hl);
  .latchR .dlatch,  -- case 0x010C: cpu->dlatch=_gd();
  .aluFetch .aOr .dlatch,  -- case 0x010D: cpu->a=z80_or(cpu,cpu->dlatch);_fetch();
  .aluFetch .aOr .a,  -- case 0x010E: cpu->a=z80_or(cpu,cpu->a);_fetch();
  .cpFetch .b,  -- case 0x010F: z80_cp(cpu,cpu->b);_fetch();
  .cpFetch .c,  -- case 0x0110: z80_cp(cpu,cpu->c);_fetch();
  .cpFetch .d,  -- case 0x0111: z80_cp(cpu,cpu->d);_fetch();
  .cpFetch .e,  -- case 0x0112: z80_cp(cpu,cpu->e);_fetch();
  .cpFetch .h,  -- case 0x0113: z80_cp(cpu,cpu->h);_fetch();
  .cpFetch .l,  -- case 0x0114: z80_cp(cpu,cpu->l);_fetch();
  .mreadHL,  -- case 0x0115: _mread(cpu->hl);
  .latchR .dlatch,  -- case 0x0116: cpu->dlatch=_gd();
  .cpFetch .dlatch,  -- case 0x0117: z80_cp(cpu,cpu->dlatch);_fetch();
  .cpFetch .a,  -- case 0x0118: z80_cp(cpu,cpu->a);_fetch();
  .fetch,  -- case 0x0119: _fetch();
  .fetch,  -- case 0x011A: _fetch();
  .fetch,  -- case 0x011B: _fetch();
  .fetch,  -- case 0x011C: _fetch();
  .fetch,  -- case 0x011D: _fetch();
  .fetch,  -- case 0x011E: _fetch();
  .fetch  -- case 0x011F: _fetch();
]

def z80_case_chunk9 : List MStep := [
  .fetch,  -- case 0x0120: _fetch();
  .fetch,  -- case 0x0121: _fetch();
  .fetch,  -- case 0x0122: _fetch();
  .fetch,  -- case 0x0123: _fetch();
  .fetch,  -- case 0x0124: _fetch();
  .fetch,  -- case 0x0125: _fetch();
  .fetch,  -- case 0x0126: _fetch();
  .fetch,  -- case 0x0127: _fetch();
  .fetch,  -- case 0x0128: _fetch();
  .fetch,  -- case 0x0129: _fetch();
  .fetch,  -- case 0x012A: _fetch();
  .fetch,  -- case 0x012B: _fetch();
  .fetch,  -- case 0x012C: _fetch();
  .fetch,  -- case 0x012D: _fetch();
  .fetch,  -- case 0x012E: _fetch();
  .fetch,  -- case 0x012F: _fetch();
  .fetch,  -- case 0x0130: _fetch();
  .fetch,  -- case 0x0131: _fetch();
  .fetch,  -- case 0x0132: _fetch();
  .fetch,  -- case 0x0133: _fetch();
  .fetch,  -- case 0x0134: _fetch();
  .fetch,  -- case 0x0135: _fetch();
  .fetch,  -- case 0x0136: _fetch();
  .fetch,  -- case 0x0137: _fetch();
  .fetch,  -- case 0x0138: _fetch();
  .fetch,  -- case 0x0139: _fetch();
  .fetch,  -- case 0x013A: _fetch();
  .fetch,  -- case 0x013B: _fetch();
  .fetch,  -- case 0x013C: _fetch();
  .fetch,  -- case 0x013D: _fetch();
  .fetch,  -- case 0x013E: _fetch();
  .fetch  -- case 0x013F: _fetch();
]

def z80_case_chunk10 : List MStep := [
  .fetch,  -- case 0x0140: _fetch();
  .fetch,  -- case 0x0141: _fetch();
  .fetch,  -- case 0x0142: _fetch();
  .fetch,  -- case 0x0143: _fetch();
  .fetch,  -- case 0x0144: _fetch();
  .fetch,  -- case 0x0145: _fetch();
  .fetch,  -- case 0x0146: _fetch();
  .fetch,  -- case 0x0147: _fetch();
  .fetch,  -- case 0x0148: _fetch();
  .fetch,  -- case 0x0149: _fetch();
  .fetch,  -- case 0x014A: _fetch();
  .fetch,  -- case 0x014B: _fetch();
  .fetch,  -- case 0x014C: _fetch();
  .fetch,  -- case 0x014D: _fetch();
  .fetch,  -- case 0x014E: _fetch();
  .fetch,  -- case 0x014F: _fetch();
  .fetch,  -- case 0x0150: _fetch();
  .fetch,  -- case 0x0151: _fetch();
  .fetch,  -- case 0x0152: _fetch();
  .fetch,  -- case 0x0153: _fetch();
  .fetch,  -- case 0x0154: _fetch();
  .fetch,  -- case 0x0155: _fetch();
  .fetch,  -- case 0x0156: _fetch();
  .fetch,  -- case 0x0157: _fetch();
  .fetch  -- case 0x0158: _fetch();
]

def z80_case_list : List MStep :=
  z80_case_chunk0 ++ z80_case_chunk1 ++ z80_case_chunk2 ++ z80_case_chunk3 ++ z80_case_chunk4 ++ z80_case_chunk5 ++ z80_case_chunk6 ++ z80_case_chunk7 ++ z80_case_chunk8 ++ z80_case_chunk9 ++ z80_case_chunk10

/-- The `switch (cpu->op.step++)` dispatch: micro-step at index `s`; values
outside the 0x159 cases hit the (empty) default. -/
def z80_case (s : Nat) : MStep := z80_case_list.getD s .noAct

/-- One clock tick, `z80_tick` of the source. -/
def z80_tick (cpu : z80_t) (pins : Nat) : z80_t × Nat :=
  -- wait cycle? (wait pin sampling only happens in specific tcycles)
  if (cpu.op.pip &&& Z80_PIP_BIT_WAIT ≠ 0) ∧ (pins &&& Z80_WAIT ≠ 0) then
    ({cpu with pins := pins &&& c_not64 Z80_CTRL_PIN_MASK}, pins)
  else
    -- process the next active tcycle
    let pins := pins &&& c_not64 Z80_CTRL_PIN_MASK
    let res :=
      if cpu.op.pip &&& Z80_PIP_BIT_STEP ≠ 0 then
        z80_exec (z80_case cpu.op.step)
          {cpu with op := ⟨cpu.op.pip, (cpu.op.step + 1) % (2 ^ 64)⟩} pins
      else
        (cpu, pins)
    -- advance the decode pipeline by one tcycle, store and return pins
    ({res.1 with
        op := ⟨(res.1.op.pip &&& c_not64 Z80_PIP_BITS) >>> 1, res.1.op.step⟩,
        pins := res.2},
     res.2)

/-- 32-bit two's-complement reading of a bit pattern (the value a 32-bit C
`int` holds for that pattern). -/
def c_int32 (n : Nat) : Int :=
  if n % 2 ^ 32 < 2 ^ 31 then ((n % 2 ^ 32 : Nat) : Int)
  else ((n % 2 ^ 32 : Nat) : Int) - 2 ^ 32

/-- Conversion of a C integer value to `uint64_t` (reduction modulo `2^64`). -/
def c_uint64_of_int (x : Int) : Nat := (x % (2 ^ 64 : Int)).toNat

/-- The value stored by `cpu->op.pip = (1<<31)|5;`: the expression has type
`int`; on the 32-bit two's-complement `int` model its bit pattern is
`0x80000005`, read as the negative value `-2147483643`, which the store into
the `uint64_t` field converts modulo `2^64`. -/
def z80_init_pip : Nat := c_uint64_of_int (c_int32 ((1 <<< 31) ||| 5))

/-- `z80_init`: zero the state, set the 16-bit register pairs to `0x5555`,
prime the pipeline, and return the initial `M1|MREQ|RD` pin word. -/
def z80_init : z80_t × Nat :=
  ({ pins := 0, op := ⟨z80_init_pip, 0⟩, pc := 0, ir := 0, dlatch := 0,
     af := 0x5555, bc := 0x5555, de := 0x5555, hl := 0x5555,
     wz := 0x5555, sp := 0x5555, ix := 0x5555, iy := 0x5555,
     i := 0, r := 0, im := 0,
     af2 := 0x5555, bc2 := 0x5555, de2 := 0x5555, hl2 := 0x5555 },
   Z80_M1 ||| Z80_MREQ ||| Z80_RD)

def z80_opdone (cpu : z80_t) : Bool := cpu.op.step == 0

def z80_prefetch (cpu : z80_t) (new_pc : Nat) : z80_t × Nat :=
  ({cpu with pc := new_pc % 65536, op := ⟨1, 2⟩}, 0)

/-- The host of the reset-then-NOP scenario: between ticks it places opcode
`0x00` on the data bus and never asserts WAIT. -/
def z80_nop_host (p : Nat) : Nat := p &&& c_not64 (0xFF0000 ||| Z80_WAIT)

/-- Reset-then-NOP trajectory: CPU state and last returned pin word after
`z80_init` followed by `n` ticks against `z80_nop_host`. -/
def z80_reset_nop : Nat → z80_t × Nat
  | 0 => z80_init
  | n + 1 => let s := z80_reset_nop n; z80_tick s.1 (z80_nop_host s.2)

/-- `n` consecutive ticks with the same input pin word. -/
def z80_tickN (cpu : z80_t) (pins : Nat) : Nat → z80_t
  | 0 => cpu
  | n + 1 => (z80_tick (z80_tickN cpu pins n) pins).1

/-! ### Bitwise helper lemmas -/

lemma nat_or_land (a b m : Nat) : (a ||| b) &&& m = (a &&& m) ||| (b &&& m) := by
  apply Nat.eq_of_testBit_eq
  intro i
  simp [Nat.testBit_land, Nat.testBit_lor, Bool.and_or_distrib_right]

lemma nat_land_eq_zero_of_lt {n : Nat} (a m : Nat) (ha : a < 2 ^ n)
    (hm : (2 ^ n - 1) &&& m = 0) : a &&& m = 0 := by
  calc a &&& m = (a &&& (2 ^ n - 1)) &&& m := by
        rw [Nat.and_pow_two_sub_one_of_lt_two_pow ha]
    _ = a &&& ((2 ^ n - 1) &&& m) := Nat.land_assoc _ _ _
    _ = a &&& 0 := by rw [hm]
    _ = 0 := Nat.and_zero a

lemma mod_land_ctrl (a : Nat) : (a % 65536) &&& Z80_CTRL_PIN_MASK = 0 :=
  nat_land_eq_zero_of_lt (n := 16) _ _ (Nat.mod_lt _ (by decide)) (by decide)

lemma db_land_ctrl (d : Nat) : ((d % 256) <<< 16) &&& Z80_CTRL_PIN_MASK = 0 := by
  refine nat_land_eq_zero_of_lt (n := 24) _ _ ?_ (by decide)
  have h : d % 256 < 256 := Nat.mod_lt _ (by decide)
  rw [Nat.shiftLeft_eq]
  omega

lemma set_ab_x_land_ctrl (p a x : Nat) :
    z80_set_ab_x p a x &&& Z80_CTRL_PIN_MASK
      = (p &&& Z80_CTRL_PIN_MASK) ||| (x &&& Z80_CTRL_PIN_MASK) := by
  unfold z80_set_ab_x
  rw [nat_or_land, nat_or_land, Nat.land_assoc, mod_land_ctrl, Nat.or_zero]
  have h : c_not64 0xFFFF &&& Z80_CTRL_PIN_MASK = Z80_CTRL_PIN_MASK := by decide
  rw [h]

lemma set_ab_db_x_land_ctrl (p a d x : Nat) :
    z80_set_ab_db_x p a d x &&& Z80_CTRL_PIN_MASK
      = (p &&& Z80_CTRL_PIN_MASK) ||| (x &&& Z80_CTRL_PIN_MASK) := by
  unfold z80_set_ab_db_x
  rw [nat_or_land, nat_or_land, nat_or_land, Nat.land_assoc, mod_land_ctrl,
    db_land_ctrl, Nat.or_zero, Nat.or_zero]
  have h : c_not64 0xFFFFFF &&& Z80_CTRL_PIN_MASK = Z80_CTRL_PIN_MASK := by decide
  rw [h]

lemma ctrl_cleared_land (p : Nat) :
    (p &&& c_not64 Z80_CTRL_PIN_MASK) &&& Z80_CTRL_PIN_MASK = 0 := by
  rw [Nat.land_assoc]
  have h : c_not64 Z80_CTRL_PIN_MASK &&& Z80_CTRL_PIN_MASK = 0 := by decide
  rw [h, Nat.and_zero]

/-! ### Frame lemmas: fields never written by the current decoder -/

@[simp] lemma z80_set8_ix (rg : Reg8) (v : Nat) (cpu : z80_t) :
    (z80_set8 rg v cpu).ix = cpu.ix := by cases rg <;> rfl

@[simp] lemma z80_set8_iy (rg : Reg8) (v : Nat) (cpu : z80_t) :
    (z80_set8 rg v cpu).iy = cpu.iy := by cases rg <;> rfl

@[simp] lemma z80_set8_i (rg : Reg8) (v : Nat) (cpu : z80_t) :
    (z80_set8 rg v cpu).i = cpu.i := by cases rg <;> rfl

@[simp] lemma z80_set8_im (rg : Reg8) (v : Nat) (cpu : z80_t) :
    (z80_set8 rg v cpu).im = cpu.im := by cases rg <;> rfl

@[simp] lemma z80_set8_af2 (rg : Reg8) (v : Nat) (cpu : z80_t) :
    (z80_set8 rg v cpu).af2 = cpu.af2 := by cases rg <;> rfl

@[simp] lemma z80_set8_bc2 (rg : Reg8) (v : Nat) (cpu : z80_t) :
    (z80_set8 rg v cpu).bc2 = cpu.bc2 := by cases rg <;> rfl

@[simp] lemma z80_set8_de2 (rg : Reg8) (v : Nat) (cpu : z80_t) :
    (z80_set8 rg v cpu).de2 = cpu.de2 := by cases rg <;> rfl

@[simp] lemma z80_set8_hl2 (rg : Reg8) (v : Nat) (cpu : z80_t) :
    (z80_set8 rg v cpu).hl2 = cpu.hl2 := by cases rg <;> rfl

@[simp] lemma z80_alu_fn_fst (k : AluK) (cpu : z80_t) (v : Nat) :
    (z80_alu_fn k cpu v).1 = cpu := by cases k <;> rfl

@[simp] lemma z80_alu_fn_snd (k : AluK) (cpu : z80_t) (v : Nat) :
    (z80_alu_fn k cpu v).2 = 0 := by cases k <;> rfl

/-- No micro-step of the current decoder writes IX, IY, I, IM or any shadow
register. -/
lemma z80_exec_frame (m : MStep) (cpu : z80_t) (pins : Nat) :
    (z80_exec m cpu pins).1.ix = cpu.ix ∧ (z80_exec m cpu pins).1.iy = cpu.iy ∧
    (z80_exec m cpu pins).1.i = cpu.i ∧ (z80_exec m cpu pins).1.im = cpu.im ∧
    (z80_exec m cpu pins).1.af2 = cpu.af2 ∧ (z80_exec m cpu pins).1.bc2 = cpu.bc2 ∧
    (z80_exec m cpu pins).1.de2 = cpu.de2 ∧ (z80_exec m cpu pins).1.hl2 = cpu.hl2 := by
  cases m <;>
    simp [z80_exec, z80_fetch, z80_refresh, z80_halt, z80_cp]

/-- Every micro-step leaves the pin word alone or drives the address bus with
exactly one of the four control patterns of the source. -/
lemma z80_exec_land_ctrl (m : MStep) (cpu : z80_t) (pins : Nat) :
    (z80_exec m cpu pins).2 &&& Z80_CTRL_PIN_MASK = pins &&& Z80_CTRL_PIN_MASK ∨
    (z80_exec m cpu pins).2 &&& Z80_CTRL_PIN_MASK
      = (pins &&& Z80_CTRL_PIN_MASK) ||| (Z80_M1 ||| Z80_MREQ ||| Z80_RD) ∨
    (z80_exec m cpu pins).2 &&& Z80_CTRL_PIN_MASK
      = (pins &&& Z80_CTRL_PIN_MASK) ||| (Z80_MREQ ||| Z80_RFSH) ∨
    (z80_exec m cpu pins).2 &&& Z80_CTRL_PIN_MASK
      = (pins &&& Z80_CTRL_PIN_MASK) ||| (Z80_MREQ ||| Z80_RD) ∨
    (z80_exec m cpu pins).2 &&& Z80_CTRL_PIN_MASK
      = (pins &&& Z80_CTRL_PIN_MASK) ||| (Z80_MREQ ||| Z80_WR) := by
  cases m <;>
    simp only [z80_exec, z80_fetch, z80_refresh, z80_halt, z80_cp,
      set_ab_x_land_ctrl, set_ab_db_x_land_ctrl] <;>
    first
    | (left; trivial)
    | (right; left; rw [show (Z80_M1 ||| Z80_MREQ ||| Z80_RD) &&& Z80_CTRL_PIN_MASK
          = Z80_M1 ||| Z80_MREQ ||| Z80_RD from by decide])
    | (right; right; left; rw [show (Z80_MREQ ||| Z80_RFSH) &&& Z80_CTRL_PIN_MASK
          = Z80_MREQ ||| Z80_RFSH from by decide])
    | (right; right; right; left; rw [show (Z80_MREQ ||| Z80_RD) &&& Z80_CTRL_PIN_MASK
          = Z80_MREQ ||| Z80_RD from by decide])
    | (right; right; right; right; rw [show (Z80_MREQ ||| Z80_WR) &&& Z80_CTRL_PIN_MASK
          = Z80_MREQ ||| Z80_WR from by decide])

/-! ### Tick-level lemmas -/

/-- On a tick that is not wait-stalled, the control portion of the returned
pin word is empty or exactly one of the four patterns driven by the
micro-steps. -/
lemma z80_tick_nonstall_snd_land (c : z80_t) (p : Nat)
    (h : ¬((c.op.pip &&& Z80_PIP_BIT_WAIT ≠ 0) ∧ (p &&& Z80_WAIT ≠ 0))) :
    (z80_tick c p).2 &&& Z80_CTRL_PIN_MASK = 0 ∨
    (z80_tick c p).2 &&& Z80_CTRL_PIN_MASK = Z80_M1 ||| Z80_MREQ ||| Z80_RD ∨
    (z80_tick c p).2 &&& Z80_CTRL_PIN_MASK = Z80_MREQ ||| Z80_RFSH ∨
    (z80_tick c p).2 &&& Z80_CTRL_PIN_MASK = Z80_MREQ ||| Z80_RD ∨
    (z80_tick c p).2 &&& Z80_CTRL_PIN_MASK = Z80_MREQ ||| Z80_WR := by
  unfold z80_tick
  rw [if_neg h]
  dsimp only
  split
  · have hx := z80_exec_land_ctrl (z80_case c.op.step)
      {c with op := ⟨c.op.pip, (c.op.step + 1) % 2 ^ 64⟩}
      (p &&& c_not64 Z80_CTRL_PIN_MASK)
    rw [ctrl_cleared_land] at hx
    simpa only [Nat.zero_or] using hx
  · left
    exact ctrl_cleared_land p

lemma land_ctrl_mreq (q : Nat) :
    (q &&& Z80_CTRL_PIN_MASK) &&& Z80_MREQ = q &&& Z80_MREQ := by
  rw [Nat.land_assoc,
    show Z80_CTRL_PIN_MASK &&& Z80_MREQ = Z80_MREQ from by decide]

lemma land_ctrl_iorq (q : Nat) :
    (q &&& Z80_CTRL_PIN_MASK) &&& Z80_IORQ = q &&& Z80_IORQ := by
  rw [Nat.land_assoc,
    show Z80_CTRL_PIN_MASK &&& Z80_IORQ = Z80_IORQ from by decide]

lemma land_ctrl_rfsh (q : Nat) :
    (q &&& Z80_CTRL_PIN_MASK) &&& Z80_RFSH = q &&& Z80_RFSH := by
  rw [Nat.land_assoc,
    show Z80_CTRL_PIN_MASK &&& Z80_RFSH = Z80_RFSH from by decide]

/-- Some pin of `mask` is asserted in pin word `p`. -/
abbrev z80_pins_on (p mask : Nat) : Prop := p &&& mask ≠ 0

/-- At most one of the control pins MREQ, IORQ, RFSH is asserted in `p`. -/
abbrev z80_atMostOneCtl (p : Nat) : Prop :=
  ¬(z80_pins_on p Z80_MREQ ∧ z80_pins_on p Z80_IORQ) ∧
  ¬(z80_pins_on p Z80_MREQ ∧ z80_pins_on p Z80_RFSH) ∧
  ¬(z80_pins_on p Z80_IORQ ∧ z80_pins_on p Z80_RFSH)

/-- A CPU state about to execute the shared refresh micro-step: decoder step
1 with the step bit of the pipeline due this tick. -/
def z80_refresh_cex : z80_t := {z80_init.1 with op := ⟨1, 1⟩}

/-! ### Claim theorems -/

/-- **C1, counterexample.** On the tick that executes the refresh micro-step
(decoder step 1) the returned pin word asserts both MREQ and RFSH, so it does
not have at most one of {MREQ, IORQ, RFSH} asserted. -/
theorem z80_refresh_cex_two_pins :
    ¬ z80_atMostOneCtl (z80_tick z80_refresh_cex 0).2 := by decide

/-- **C1, amended.** For every CPU state and input pin word, on a tick that
is not wait-stalled the returned pin word never asserts MREQ together with
IORQ, never asserts IORQ together with RFSH, and asserts RFSH only together
with MREQ (on the refresh micro-step MREQ and RFSH are asserted
simultaneously); a wait-stalled tick returns the input word unchanged. -/
theorem z80_tick_ctrl_exclusive (c : z80_t) (p : Nat)
    (h : ¬((c.op.pip &&& Z80_PIP_BIT_WAIT ≠ 0) ∧ (p &&& Z80_WAIT ≠ 0))) :
    ¬(z80_pins_on (z80_tick c p).2 Z80_MREQ ∧ z80_pins_on (z80_tick c p).2 Z80_IORQ) ∧
    ¬(z80_pins_on (z80_tick c p).2 Z80_IORQ ∧ z80_pins_on (z80_tick c p).2 Z80_RFSH) ∧
    (z80_pins_on (z80_tick c p).2 Z80_RFSH → z80_pins_on (z80_tick c p).2 Z80_MREQ) := by
  rcases z80_tick_nonstall_snd_land c p h with hv | hv | hv | hv | hv <;>
  · unfold z80_pins_on
    rw [← land_ctrl_mreq, ← land_ctrl_iorq, ← land_ctrl_rfsh, hv]
    decide

theorem z80_tick_ctrl_exclusive_witness :
    (¬((z80_init.1.op.pip &&& Z80_PIP_BIT_WAIT ≠ 0) ∧ ((0 : Nat) &&& Z80_WAIT ≠ 0))) ∧
    (¬(z80_pins_on (z80_tick z80_init.1 0).2 Z80_MREQ ∧
        z80_pins_on (z80_tick z80_init.1 0).2 Z80_IORQ) ∧
     ¬(z80_pins_on (z80_tick z80_init.1 0).2 Z80_IORQ ∧
        z80_pins_on (z80_tick z80_init.1 0).2 Z80_RFSH) ∧
     (z80_pins_on (z80_tick z80_init.1 0).2 Z80_RFSH →
        z80_pins_on (z80_tick z80_init.1 0).2 Z80_MREQ)) :=
  ⟨by decide, z80_tick_ctrl_exclusive z80_init.1 0 (by decide)⟩

/-- **C2, counterexample.** On a wait-stalled tick with control bits present
in the input, the pins stored on the CPU differ from the returned pin word:
the store masks off the control pins while the return value is the unmodified
input. -/
theorem z80_tick_wait_pins_mismatch :
    (z80_tick z80_init.1 (Z80_WAIT ||| Z80_MREQ)).1.pins
      ≠ (z80_tick z80_init.1 (Z80_WAIT ||| Z80_MREQ)).2 := by decide

/-- **C2, amended.** On every tick that is not wait-stalled, the pins field
stored in the CPU struct equals the returned pin word.  (On a wait-stalled
tick the stored pins are the input with the six control pins cleared, while
the returned word is the unmodified input.) -/
theorem z80_tick_pins_stored (c : z80_t) (p : Nat)
    (h : ¬((c.op.pip &&& Z80_PIP_BIT_WAIT ≠ 0) ∧ (p &&& Z80_WAIT ≠ 0))) :
    (z80_tick c p).1.pins = (z80_tick c p).2 := by
  unfold z80_tick
  rw [if_neg h]

theorem z80_tick_pins_stored_witness :
    (¬((z80_init.1.op.pip &&& Z80_PIP_BIT_WAIT ≠ 0) ∧ ((0 : Nat) &&& Z80_WAIT ≠ 0))) ∧
    (z80_tick z80_init.1 0).1.pins = (z80_tick z80_init.1 0).2 :=
  ⟨by decide, z80_tick_pins_stored z80_init.1 0 (by decide)⟩

/-- **C3.** A wait-stalled tick (pipeline wait bit set, WAIT pin asserted)
changes nothing but the stored pins, which become the input pins with the
control bits cleared, and returns the input word; hence any positive number
of consecutive wait ticks leaves the CPU in the same state as a single one,
identical to the pre-tick state except for the stored pins. -/
theorem z80_tick_wait_preserves (c : z80_t) (p n : Nat)
    (h1 : c.op.pip &&& Z80_PIP_BIT_WAIT ≠ 0) (h2 : p &&& Z80_WAIT ≠ 0) :
    z80_tick c p = ({c with pins := p &&& c_not64 Z80_CTRL_PIN_MASK}, p) ∧
    z80_tickN c p (n + 1) = {c with pins := p &&& c_not64 Z80_CTRL_PIN_MASK} := by
  have hone : ∀ d : z80_t, d.op = c.op →
      z80_tick d p = ({d with pins := p &&& c_not64 Z80_CTRL_PIN_MASK}, p) := by
    intro d hd
    unfold z80_tick
    rw [if_pos ⟨by rw [hd]; exact h1, h2⟩]
  refine ⟨hone c rfl, ?_⟩
  induction n with
  | zero =>
      show (z80_tick (z80_tickN c p 0) p).1 = _
      rw [show z80_tickN c p 0 = c from rfl, hone c rfl]
  | succ k ih =>
      show (z80_tick (z80_tickN c p (k + 1)) p).1 = _
      rw [ih, hone {c with pins := p &&& c_not64 Z80_CTRL_PIN_MASK} rfl]

theorem z80_tick_wait_preserves_witness :
    (z80_init.1.op.pip &&& Z80_PIP_BIT_WAIT ≠ 0 ∧ Z80_WAIT &&& Z80_WAIT ≠ 0) ∧
    (z80_tick z80_init.1 Z80_WAIT
        = ({z80_init.1 with pins := Z80_WAIT &&& c_not64 Z80_CTRL_PIN_MASK}, Z80_WAIT) ∧
      z80_tickN z80_init.1 Z80_WAIT 3
        = {z80_init.1 with pins := Z80_WAIT &&& c_not64 Z80_CTRL_PIN_MASK}) :=
  ⟨⟨by decide, by decide⟩,
   z80_tick_wait_preserves z80_init.1 Z80_WAIT 2 (by decide) (by decide)⟩

/-- A CPU state about to execute the SUB B overlap micro-step (case 0x00DD)
with A = B = 5 and a clear flags byte. -/
def z80_sub_cex_a : z80_t :=
  {z80_init.1 with af := 0x0500, bc := 0x0500, op := ⟨1, 0x00DD⟩}

/-- As `z80_sub_cex_a` but with A = 1, B = 2 (unsigned A < B). -/
def z80_sub_cex_b : z80_t :=
  {z80_init.1 with af := 0x0100, bc := 0x0200, op := ⟨1, 0x00DD⟩}

/-- **C4.** `z80_sub` is a FIXME stub: executing the SUB B micro-step leaves
the flags byte unchanged, so with A = B = 5 the Z flag is not set afterwards
(and the stub result 0 is written to A), and with A = 1, B = 2 the C flag is
not set, contradicting the flag law Z ⇔ a = b and C ⇔ a < b. -/
theorem z80_sub_stub_flags :
    (z80_get8 .a z80_sub_cex_a = 5 ∧ z80_get8 .b z80_sub_cex_a = 5 ∧
      z80_sub_cex_a.af &&& 0xFF = 0) ∧
    z80_sub z80_sub_cex_a 5 = (z80_sub_cex_a, 0) ∧
    ((z80_tick z80_sub_cex_a 0).1.af &&& Z80_ZF = 0) ∧
    (z80_get8 .a (z80_tick z80_sub_cex_a 0).1 = 0) ∧
    (z80_get8 .a z80_sub_cex_b = 1 ∧ z80_get8 .b z80_sub_cex_b = 2 ∧
      ((z80_tick z80_sub_cex_b 0).1.af &&& Z80_CF = 0)) := by
  decide

/-- **C5, counterexample.** The pipeline word stored by `z80_init` is not the
value `(1 <<< 31) ||| 5 = 0x0000000080000005` the claim states: the C
expression has type `int` and sign-extends through the `uint64_t` store. -/
theorem z80_init_pip_ne_spec : z80_init.1.op.pip ≠ (1 <<< 31) ||| 5 := by decide

/-- **C5, amended.** `z80_init` zeroes the CPU state, sets every 16-bit
register pair to 0x5555, sets `op.pip` to 0xFFFFFFFF80000005 (the value the
C expression `(1<<31)|5` of type `int` produces when stored into the 64-bit
pipeline field) with `op.step = 0`, and returns the pin word `M1|MREQ|RD`. -/
theorem z80_init_state :
    z80_init.1.af = 0x5555 ∧ z80_init.1.bc = 0x5555 ∧ z80_init.1.de = 0x5555 ∧
    z80_init.1.hl = 0x5555 ∧ z80_init.1.wz = 0x5555 ∧ z80_init.1.sp = 0x5555 ∧
    z80_init.1.ix = 0x5555 ∧ z80_init.1.iy = 0x5555 ∧ z80_init.1.af2 = 0x5555 ∧
    z80_init.1.bc2 = 0x5555 ∧ z80_init.1.de2 = 0x5555 ∧ z80_init.1.hl2 = 0x5555 ∧
    z80_init.1.pins = 0 ∧ z80_init.1.pc = 0 ∧ z80_init.1.ir = 0 ∧
    z80_init.1.dlatch = 0 ∧ z80_init.1.i = 0 ∧ z80_init.1.r = 0 ∧
    z80_init.1.im = 0 ∧ z80_init.1.op.step = 0 ∧
    z80_init.1.op.pip = 0xFFFFFFFF80000005 ∧
    z80_init.2 = Z80_M1 ||| Z80_MREQ ||| Z80_RD := by
  decide

/-- **C6.** In the reset-then-NOP scenario (data bus 0x00, WAIT never
asserted), `z80_opdone` is false after each of the first three ticks and
becomes true after exactly the fourth. -/
theorem z80_nop_opdone_after_four :
    z80_opdone (z80_reset_nop 1).1 = false ∧
    z80_opdone (z80_reset_nop 2).1 = false ∧
    z80_opdone (z80_reset_nop 3).1 = false ∧
    z80_opdone (z80_reset_nop 4).1 = true := by
  decide

/-- **C7.** In the reset-then-NOP scenario the fourth tick returns the
overlapped fetch pin word with `M1|MREQ|RD` asserted but with address
0x0000 — not 0x0001 — and PC equals 0x0001 — not 0x0002 — afterwards:
`z80_init` issues the initial fetch of address 0 without advancing PC past
it, so the overlap re-fetches address 0. -/
theorem z80_reset_nop_tick4 :
    ((z80_reset_nop 4).2 &&& 0xFFFF = 0) ∧
    ((z80_reset_nop 4).2 &&& Z80_CTRL_PIN_MASK = Z80_M1 ||| Z80_MREQ ||| Z80_RD) ∧
    ((z80_reset_nop 4).1.pc = 1) := by
  decide

/-- **C8.** `z80_tick` is a pure function of the CPU state and the input pin
word: equal inputs give equal resulting states and equal returned pin
words. -/
theorem z80_tick_deterministic (c1 c2 : z80_t) (p1 p2 : Nat)
    (hc : c1 = c2) (hp : p1 = p2) : z80_tick c1 p1 = z80_tick c2 p2 := by
  rw [hc, hp]

theorem z80_tick_deterministic_witness :
    (z80_init.1 = z80_init.1 ∧ (0 : Nat) = 0) ∧
    z80_tick z80_init.1 0 = z80_tick z80_init.1 0 :=
  ⟨⟨rfl, rfl⟩, z80_tick_deterministic z80_init.1 z80_init.1 0 0 rfl rfl⟩

/-- **C9.** Immediately after `z80_init`, `z80_opdone` already returns true:
the freshly initialised decoder step is 0, which is exactly the opdone
condition. -/
theorem z80_opdone_after_init :
    z80_opdone z80_init.1 = true ∧ z80_init.1.op.step = 0 := by decide

/-- **C10.** A tick never writes IX, IY, I, IM or any shadow register
(AF2, BC2, DE2, HL2): no micro-step of the current decoder touches them. -/
theorem z80_tick_shadow_frame (c : z80_t) (p : Nat) :
    (z80_tick c p).1.ix = c.ix ∧ (z80_tick c p).1.iy = c.iy ∧
    (z80_tick c p).1.i = c.i ∧ (z80_tick c p).1.im = c.im ∧
    (z80_tick c p).1.af2 = c.af2 ∧ (z80_tick c p).1.bc2 = c.bc2 ∧
    (z80_tick c p).1.de2 = c.de2 ∧ (z80_tick c p).1.hl2 = c.hl2 := by
  unfold z80_tick
  split
  · simp
  · dsimp only
    split
    · simpa using z80_exec_frame (z80_case c.op.step)
        {c with op := ⟨c.op.pip, (c.op.step + 1) % 2 ^ 64⟩}
        (p &&& c_not64 Z80_CTRL_PIN_MASK)
    · simp
